import Mathlib

/-!
# Verification of the webxr-harness trial orchestration and timing engine

This file shallowly embeds the core of the `webxr-harness` repository in
Lean 4 and proves (or refutes) the frozen claims C1..C10 about it.

Conventions used throughout:

* JavaScript numbers are modelled as `ℚ` (exact rational arithmetic).  All
  quantities appearing in the claims are far from the float64 rounding
  granularity, and every comparison proved here has a margin that dwarfs
  double-precision rounding error, so the rational model is faithful for
  the statements at hand.  `NaN` never arises on the modelled paths except
  where noted (there it is modelled with `Option`, `none` = not-finite).
* JavaScript out-of-bounds array indexing yields `undefined`, not an
  exception; this is modelled with `List.get?` (`none` = `undefined`).
* Machine-integer (32-bit) operations of the PRNG are modelled on `ℕ`
  with explicit `% 2^32` reductions at every JS `ToInt32`/`ToUint32`
  coercion point.
* Sources embedded: `src/app-webgl.js`, `src/app-webgpu.js`,
  `src/common/metrics.js`, the older webgpu orchestrator kept in the
  repository (`src/unnamed/part_003`, header `// src/app-webgpu.js`) and
  the results validator (`src/unnamed/part_004`,
  `tools/validate-results.mjs`).
-/

namespace WebXRHarness

/-! ## Frame statistics (`src/common/metrics.js`, class `RunStats`)

`RunStats` accumulates frame-interval samples and reduces them to the
percentile summary.  `summarize` sorts the samples, sets
`n = a.length || 1` and selects percentiles with
`a[Math.min(n-1, Math.floor(p*(n-1)))]`; out-of-range indexing (only
possible for the empty stream) yields JS `undefined`, modelled as `none`.
`duration_ms` is `endWall - startWall`, the wall-clock markers. -/

structure RunStats where
  frameTimes : List ℚ
  startWall : ℚ
  endWall : ℚ

structure Summary where
  frames : ℕ
  duration_ms : ℚ
  mean_ms : ℚ
  p50_ms : Option ℚ
  p95_ms : Option ℚ
  p99_ms : Option ℚ
deriving Repr, DecidableEq

/-- JS `array[i]`: `undefined` (`none`) when out of bounds. -/
def jsIndex (a : List ℚ) (i : ℕ) : Option ℚ := a.get? i

/-- The selection index `Math.min(n - 1, Math.floor(p * (n - 1)))` used by
`RunStats.summarize` (and `summarizeSeries`); `n ≥ 1` always. -/
def quantileIndex (n : ℕ) (p : ℚ) : ℕ :=
  min (n - 1) (Int.toNat ⌊p * ((n : ℚ) - 1)⌋)

/-- JS `array.sort((x,y) => x - y)`: the samples in ascending numeric
order (stability is irrelevant for numbers; insertion sort is used for
kernel-reducibility). -/
def jsSortAsc (l : List ℚ) : List ℚ := l.insertionSort (· ≤ ·)

def RunStats.summarize (s : RunStats) : Summary :=
  let a := jsSortAsc s.frameTimes
  let n := if a.length = 0 then 1 else a.length   -- JS `a.length || 1`
  let q := fun (p : ℚ) => jsIndex a (quantileIndex n p)
  let mean := s.frameTimes.sum / (n : ℚ)
  { frames := s.frameTimes.length
    duration_ms := s.endWall - s.startWall
    mean_ms := mean
    p50_ms := q (50/100)
    p95_ms := q (95/100)
    p99_ms := q (99/100) }

/-! ## Derived extras (`src/app-webgl.js`, `nearestTargetMs` / `deriveExtras`)

`src/app-webgpu.js` and the older orchestrator contain byte-identical
copies of the two functions; the single transcription below serves for
all of them.  `deriveExtras` reads `summary.p50_ms`/`p99_ms`, which are
only `undefined` for an empty sample stream — a case no claim evaluates
`deriveExtras` on; `Option.getD 0` stands in for the JS `NaN` propagation
there. -/

def targetCandidates : List ℚ := [1000/120, 1000/90, 1000/72, 1000/60]

/-- JS `Math.abs`. -/
def jsAbs (x : ℚ) : ℚ := if x < 0 then -x else x

/-- Function `nearestTargetMs(p50)`: closest candidate, strict improvement only, so
ties keep the earlier candidate in the fixed list order. -/
def nearestTargetMs (p50 : ℚ) : ℚ :=
  (targetCandidates.foldl
    (fun (acc : ℚ × ℚ) c => if jsAbs (p50 - c) < acc.2 then (c, jsAbs (p50 - c)) else acc)
    (targetCandidates.headI, jsAbs (p50 - targetCandidates.headI))).1

structure Extras where
  fps_effective : ℚ
  fps_from_mean : ℚ
  target_ms : ℚ
  missed_1p5x : ℕ
  missed_2x : ℕ
  missed_1p5x_pct : ℚ
  max_frame_ms : ℚ
  jank_p99_over_p50 : ℚ
deriving Repr, DecidableEq

def deriveExtras (summary : Summary) (dts : List ℚ) : Extras :=
  let target_ms := nearestTargetMs (summary.p50_ms.getD 0)
  -- the single loop `for dt of dts { max; >1.5×; >2.0× }` as one fold
  let loop := dts.foldl
    (fun (acc : ℚ × ℕ × ℕ) dt =>
      (if dt > acc.1 then dt else acc.1,
       if dt > (15/10) * target_ms then acc.2.1 + 1 else acc.2.1,
       if dt > 2 * target_ms then acc.2.2 + 1 else acc.2.2))
    (0, 0, 0)
  let maxMs := loop.1
  let miss1p5 := loop.2.1
  let miss2x := loop.2.2
  { fps_effective := (summary.frames : ℚ) / (summary.duration_ms / 1000)
    fps_from_mean := 1000 / summary.mean_ms
    target_ms := target_ms
    missed_1p5x := miss1p5
    missed_2x := miss2x
    missed_1p5x_pct := if dts.length ≠ 0 then (miss1p5 : ℚ) / dts.length else 0
    max_frame_ms := maxMs
    jank_p99_over_p50 := summary.p99_ms.getD 0 / summary.p50_ms.getD 0 }

/-! ## Measured-window frame loops

`runCanvasTrial`'s `beginMeasured` in `src/app-webgl.js` (and the current
`src/app-webgpu.js`) initialises `lastT = NaN`; each frame callback with
timestamp `t` records `t - lastT` only when `Number.isFinite(lastT)`, so
the first callback records nothing.  The older webgpu orchestrator
(`src/unnamed/part_003`) instead initialises
`lastT = performance.now()` and records `dt = t - lastT` on *every*
callback, first included.  Each loop is modelled as a function from the
sequence of callback timestamps delivered during the measured window to
the list of recorded frame-interval samples. -/

/-- Loop of `src/app-webgl.js` `beginMeasured`/`frame`: `lastT` starts as `NaN`
(modelled `none`); a sample is pushed only when the previous timestamp is
finite. -/
def webglCanvasDts : Option ℚ → List ℚ → List ℚ
  | _, [] => []
  | none, t :: ts => webglCanvasDts (some t) ts
  | some lastT, t :: ts => (t - lastT) :: webglCanvasDts (some t) ts

/-- Loop of `src/unnamed/part_003` (`src/app-webgpu.js`, older revision)
`beginMeasured`/`frame`: `lastT` starts at `performance.now()` (argument
`t0`) and `dt = t - lastT` is pushed unconditionally on every callback. -/
def webgpuOldCanvasDts : ℚ → List ℚ → List ℚ
  | _, [] => []
  | lastT, t :: ts => (t - lastT) :: webgpuOldCanvasDts t ts

theorem webglCanvasDts_some_length (lastT : ℚ) (ts : List ℚ) :
    (webglCanvasDts (some lastT) ts).length = ts.length := by
  induction ts generalizing lastT with
  | nil => rfl
  | cons t ts ih => simp [webglCanvasDts, ih]

theorem webglCanvasDts_length (ts : List ℚ) :
    (webglCanvasDts none ts).length = ts.length - 1 := by
  cases ts with
  | nil => rfl
  | cons t ts => simp [webglCanvasDts, webglCanvasDts_some_length]

theorem webgpuOldCanvasDts_length (t0 : ℚ) (ts : List ℚ) :
    (webgpuOldCanvasDts t0 ts).length = ts.length := by
  induction ts generalizing t0 with
  | nil => rfl
  | cons t ts ih => simp [webgpuOldCanvasDts, ih]

theorem summarize_duration_is_wall_span (s : RunStats) :
    s.summarize.duration_ms = s.endWall - s.startWall := rfl

/-- C3 — the claim as stated fails on the repository: the older webgpu
orchestrator's measured loop records a sample already on the first frame
callback.  Concretely, a measured window delivering a single callback at
`t = 7` (with `beginMeasured` at `t0 = 0`) records 1 sample, not
`1 - 1 = 0`. -/
theorem c3_first_frame_sample_counterexample :
    (webgpuOldCanvasDts 0 [7]).length = 1 ∧
      (webgpuOldCanvasDts 0 [7]).length ≠ [(7 : ℚ)].length - 1 := by
  decide

/-- C3 (amended) — in `src/app-webgl.js` (and the current
`src/app-webgpu.js`) the first frame callback of the measured window
contributes no sample, so `k` callbacks yield `k - 1` samples; in the
older webgpu orchestrator (`src/unnamed/part_003`) the window seeds the
previous timestamp at start, so `k` callbacks yield `k` samples.  In both,
the Summary's `duration_ms` is the wall-clock end marker minus the start
marker, not the sum of the sample deltas. -/
theorem c3_sample_count_and_duration :
    (∀ ts : List ℚ, (webglCanvasDts none ts).length = ts.length - 1) ∧
      (∀ (t0 : ℚ) (ts : List ℚ), (webgpuOldCanvasDts t0 ts).length = ts.length) ∧
      (∀ s : RunStats, s.summarize.duration_ms = s.endWall - s.startWall) :=
  ⟨webglCanvasDts_length, webgpuOldCanvasDts_length,
    summarize_duration_is_wall_span⟩

/-- C8 — Scenario B: samples `[16.0, 16.7, 33.4]` give
`target_ms = 1000/60`, `missed_1.5x = 1`, `missed_2x = 1`,
`max_frame_ms = 33.4`. -/
theorem c8_scenarioB_extras :
    (deriveExtras (RunStats.summarize ⟨[16, 167/10, 167/5], 0, 1000⟩)
        [16, 167/10, 167/5]).target_ms = 1000/60 ∧
      (deriveExtras (RunStats.summarize ⟨[16, 167/10, 167/5], 0, 1000⟩)
        [16, 167/10, 167/5]).missed_1p5x = 1 ∧
      (deriveExtras (RunStats.summarize ⟨[16, 167/10, 167/5], 0, 1000⟩)
        [16, 167/10, 167/5]).missed_2x = 1 ∧
      (deriveExtras (RunStats.summarize ⟨[16, 167/10, 167/5], 0, 1000⟩)
        [16, 167/10, 167/5]).max_frame_ms = 167/5 := by
  norm_num [deriveExtras, nearestTargetMs, targetCandidates, jsAbs,
    RunStats.summarize, jsSortAsc, List.insertionSort, List.orderedInsert,
    quantileIndex, jsIndex, List.foldl]

/-- C9 — with an empty sample stream, finalizing still produces a summary:
`n` degenerates to 1, each percentile's selection index clamps to 0, the
lookup is the (total) JS indexing that yields `undefined` rather than
raising, and the mean divides by the clamped `n = 1` (no failure). -/
theorem c9_zero_samples_summary (st en : ℚ) :
    (RunStats.summarize ⟨[], st, en⟩).frames = 0 ∧
      quantileIndex 1 (50/100) = 0 ∧
      quantileIndex 1 (95/100) = 0 ∧
      quantileIndex 1 (99/100) = 0 ∧
      (RunStats.summarize ⟨[], st, en⟩).p50_ms = jsIndex [] (quantileIndex 1 (50/100)) ∧
      (RunStats.summarize ⟨[], st, en⟩).p95_ms = jsIndex [] (quantileIndex 1 (95/100)) ∧
      (RunStats.summarize ⟨[], st, en⟩).p99_ms = jsIndex [] (quantileIndex 1 (99/100)) ∧
      (RunStats.summarize ⟨[], st, en⟩).mean_ms = 0 := by
  refine ⟨rfl, ?_, ?_, ?_, rfl, rfl, rfl, ?_⟩ <;>
    simp [RunStats.summarize, quantileIndex, jsSortAsc]

/-! ## Condition planner (`buildPlan` / `shuffleInPlace` / `mulberry32`)

Both orchestrators carry their own copy of the planner:
`src/app-webgl.js` lines 225–241 and 682–689, and the older webgpu
orchestrator `src/unnamed/part_003` lines 118–133 and 295–302.  Each copy
is transcribed separately in its own namespace, from its own file, and
the two are proved extensionally equal (claim C10).

The 32-bit pipeline of `mulberry32` is modelled on `ℕ`: every JS
`| 0` / `ToInt32` / `ToUint32` coercion is an explicit `% 2^32` (the
signed/unsigned distinction is irrelevant because only the 32-bit pattern
flows onward), `Math.imul x y` is `(x * y) % 2^32` on the 32-bit
patterns, and `Math.floor(rng() * (i+1))` — where `rng()` returns
`t / 2^32` for the final 32-bit `t` — is `t * (i+1) / 2^32` in exact
(natural-division) arithmetic. -/

def U32 : ℕ := 2 ^ 32

/-- One condition `{ instances, trial }` of the Plan. -/
structure PlanItem where
  instances : ℕ
  trial : ℕ
deriving Repr, DecidableEq

/-- JS destructuring swap `[arr[i], arr[j]] = [arr[j], arr[i]]`. -/
def listSwap {α : Type} (l : List α) (i j : ℕ) : List α :=
  match l.get? i, l.get? j with
  | some vi, some vj => (l.set i vj).set j vi
  | _, _ => l

namespace Webgl

/-- The `mulberry32` step (from `src/app-webgl.js`): given the current 32-bit
state, produce the next state and the 32-bit output `t` whose value
`t / 2^32` the closure returns. -/
def mulberry32Next (a : ℕ) : ℕ × ℕ :=
  let a1 := (a + 0x6D2B79F5) % U32
  let t1 := Nat.xor a1 (a1 >>> 15) * (1 ||| a1) % U32
  let t2 := Nat.xor ((t1 + Nat.xor t1 (t1 >>> 7) * (61 ||| t1) % U32) % U32) t1
  (a1, Nat.xor t2 (t2 >>> 14))

/-- The Fisher–Yates loop of `shuffleInPlace`, indices `i` down to `1`. -/
def shuffleAux : ℕ → ℕ → List PlanItem → List PlanItem
  | 0, _, arr => arr
  | i + 1, state, arr =>
    let next := mulberry32Next state
    let j := next.2 * (i + 2) / U32
    shuffleAux i next.1 (listSwap arr (i + 1) j)

def shuffleInPlace (arr : List PlanItem) (seed : ℕ) : List PlanItem :=
  shuffleAux (arr.length - 1) (seed % U32) arr

def buildPlan (instancesList : List ℕ) (trials : ℕ) (shuffle : Bool)
    (seed : ℕ) : List PlanItem :=
  let plan := instancesList.flatMap
    (fun inst => (List.range trials).map (fun t => ⟨inst, t + 1⟩))
  if shuffle then shuffleInPlace plan seed else plan

end Webgl

namespace WebgpuOld

/-- The `mulberry32` step as duplicated in `src/unnamed/part_003`. -/
def mulberry32Next (a : ℕ) : ℕ × ℕ :=
  let a1 := (a + 0x6D2B79F5) % U32
  let t1 := Nat.xor a1 (a1 >>> 15) * (1 ||| a1) % U32
  let t2 := Nat.xor ((t1 + Nat.xor t1 (t1 >>> 7) * (61 ||| t1) % U32) % U32) t1
  (a1, Nat.xor t2 (t2 >>> 14))

/-- The Fisher–Yates loop of `shuffleInPlace` in `src/unnamed/part_003`. -/
def shuffleAux : ℕ → ℕ → List PlanItem → List PlanItem
  | 0, _, arr => arr
  | i + 1, state, arr =>
    let next := mulberry32Next state
    let j := next.2 * (i + 2) / U32
    shuffleAux i next.1 (listSwap arr (i + 1) j)

def shuffleInPlace (arr : List PlanItem) (seed : ℕ) : List PlanItem :=
  shuffleAux (arr.length - 1) (seed % U32) arr

def buildPlan (instancesList : List ℕ) (trials : ℕ) (shuffle : Bool)
    (seed : ℕ) : List PlanItem :=
  let plan := instancesList.flatMap
    (fun inst => (List.range trials).map (fun t => ⟨inst, t + 1⟩))
  if shuffle then shuffleInPlace plan seed else plan

end WebgpuOld

theorem mulberry32Next_eq (a : ℕ) :
    Webgl.mulberry32Next a = WebgpuOld.mulberry32Next a := rfl

theorem shuffleAux_eq (i : ℕ) :
    ∀ (state : ℕ) (arr : List PlanItem),
      Webgl.shuffleAux i state arr = WebgpuOld.shuffleAux i state arr := by
  induction i with
  | zero => intro state arr; rfl
  | succ i ih =>
      intro state arr
      rw [Webgl.shuffleAux, WebgpuOld.shuffleAux]
      exact ih _ _

theorem shuffleInPlace_eq (arr : List PlanItem) (seed : ℕ) :
    Webgl.shuffleInPlace arr seed = WebgpuOld.shuffleInPlace arr seed := by
  simp only [Webgl.shuffleInPlace, WebgpuOld.shuffleInPlace, shuffleAux_eq]

/-- C10 — for every configuration, the plan built by the webgl
orchestrator (`src/app-webgl.js`) and the plan built by the webgpu
orchestrator (`src/unnamed/part_003`) are identical condition sequences:
the duplicated `buildPlan`/`shuffleInPlace`/`mulberry32` implementations
are extensionally equal. -/
theorem c10_buildPlan_equivalence (instancesList : List ℕ) (trials : ℕ)
    (shuffle : Bool) (seed : ℕ) :
    Webgl.buildPlan instancesList trials shuffle seed =
      WebgpuOld.buildPlan instancesList trials shuffle seed := by
  simp only [Webgl.buildPlan, WebgpuOld.buildPlan, shuffleInPlace_eq]

/-! ## Protocol guard (`src/app-webgl.js`, `expectedApiForOrder` /
`enforceOrderControls`)

`expectedApiForOrder` is a 1-based lookup into the length-4 order tables;
`enforceOrderControls` throws (modelled as `Except.error`) on any
mismatch and runs in `main()` before any measurement.  `orderIndex` is an
`ℤ` (it comes from `parseInt`; the `Number.isFinite` guard excludes the
`NaN` case, which has no counterpart here). -/

inductive OrderError
  | invalidControls (mode : String) (index : ℤ)
  | violation (expected : String) (index : ℤ) (got : String)
  | randomizedMissingAssigned
  | randomizedMismatch (assigned got : String)
  | unsupportedMode (mode : String)
deriving Repr, DecidableEq

def expectedApiForOrder (mode : String) (index : ℤ) : Option String :=
  if index < 1 then none
  else if mode = "abba" then
    ["webgl2", "webgpu", "webgpu", "webgl2"].get? (index - 1).toNat
  else if mode = "baab" then
    ["webgpu", "webgl2", "webgl2", "webgpu"].get? (index - 1).toNat
  else none

structure OrderConfig where
  enforceOrder : Bool
  orderMode : String
  orderIndex : ℤ
  assignedApi : String   -- the empty string models an absent `assignedApi`
deriving Repr, DecidableEq

def enforceOrderControls (cfg : OrderConfig) (apiName : String) :
    Except OrderError Unit :=
  if cfg.enforceOrder = false then .ok ()
  else if cfg.orderMode = "abba" ∨ cfg.orderMode = "baab" then
    match expectedApiForOrder cfg.orderMode cfg.orderIndex with
    | none => .error (.invalidControls cfg.orderMode cfg.orderIndex)
    | some expected =>
        if expected ≠ apiName then
          .error (.violation expected cfg.orderIndex apiName)
        else .ok ()
  else if cfg.orderMode = "randomized" then
    if cfg.assignedApi = "" then .error .randomizedMissingAssigned
    else if cfg.assignedApi ≠ apiName then
      .error (.randomizedMismatch cfg.assignedApi apiName)
    else .ok ()
  else .error (.unsupportedMode cfg.orderMode)

/-- The fixed-ABBA protocol at slot 2, as configured by
`enforceOrder=1&orderMode=abba&orderIndex=2`. -/
def abbaSlot2 : OrderConfig := ⟨true, "abba", 2, ""⟩

/-- C7 — under order mode fixed-ABBA (`orderMode="abba"`) with
`orderIndex = 2`, the pre-measurement order check passes exactly for
backend `"webgpu"` (backend B) and fails with an order violation naming
the expected backend for every other backend name. -/
theorem c7_abba_slot2_order_check :
    enforceOrderControls abbaSlot2 "webgpu" = .ok () ∧
      ∀ apiName : String, apiName ≠ "webgpu" →
        enforceOrderControls abbaSlot2 apiName =
          .error (.violation "webgpu" 2 apiName) := by
  constructor
  · rfl
  · intro apiName h
    simp only [enforceOrderControls, abbaSlot2, expectedApiForOrder]
    norm_num
    exact fun hc => absurd hc.symm h

/-- Witness for C7: the webgl backend (`"webgl2"`) is rejected at
ABBA slot 2 with an order violation expecting `"webgpu"`. -/
theorem c7_abba_slot2_order_check_witness :
    ("webgl2" : String) ≠ "webgpu" ∧
      enforceOrderControls abbaSlot2 "webgl2" =
        .error (.violation "webgpu" 2 "webgl2") :=
  ⟨by decide, c7_abba_slot2_order_check.2 "webgl2" (by decide)⟩

/-! ## Immersive (XR) session driver of `src/app-webgl.js`

The XR lifecycle of the webgl orchestrator is modelled as a state
machine.  The mutable module-level variables relevant to the claims
become the fields below; the output sink (`downloadText`) becomes the
`writes` list, one entry per call, holding the list of records serialized
into that write's JSONL payload.  `setTimeout`-scheduled continuations
(`startNextXRTrial` after a trial, `beginMeasuredXR` after the pre-idle
blank) become pending flags consumed by timer events, and frame delivery
and the session `end` event are external events.  Rendering, HUD and
sample bookkeeping are dropped; they touch none of the state the claims
are about.  A frame is abstracted to the data the driver branches on:
whether `getViewerPose` returned a pose and with how many views, and
whether the wall clock passed the measured-duration cutoff. -/

/-- A record in `resultsXR`: a completed trial record or an abort record
with its `abort_code`. -/
inductive XRRecord
  | trial
  | abort (code : String)
deriving Repr, DecidableEq

def XRRecord.isAbort : XRRecord → Bool
  | .abort _ => true
  | .trial => false

def MAX_COMPARABLE_XR_VIEWS : ℕ := 2

structure XRState where
  /-- Field `resultsXR`. -/
  resultsXR : List XRRecord
  /-- Field `xrResultFlushedForSession`. -/
  flushed : Bool
  /-- Whether `xrAbortReason` is non-null. -/
  abortReason : Bool
  /-- Field `xrIndex`. -/
  xrIndex : ℕ
  /-- Field `xrPlan.length`. -/
  planLen : ℕ
  /-- Conjunction `xrActive && xrStats` (both set/cleared together on the paths
  modelled) -/
  xrActive : Bool
  /-- the session has started and not yet ended -/
  sessionLive : Bool
  /-- a `setTimeout(() => startNextXRTrial(session), …)` is pending -/
  nextPending : Bool
  /-- a `setTimeout(beginMeasuredXR, preIdleMs)` is pending -/
  measurePending : Bool
  /-- Whether `session.end()` has been requested by the driver -/
  endRequested : Bool
  /-- each `downloadText` call of `flushXRResults`, with the records its
  payload serializes -/
  writes : List (List XRRecord)
deriving Repr, DecidableEq

/-- Function `flushXRResults`: serialize the current `resultsXR` into one sink
write, set the per-session flushed flag, clear the log.  Note the
function itself has no guard. -/
def flushXRResults (s : XRState) : XRState :=
  { s with writes := s.writes ++ [s.resultsXR]
           flushed := true
           resultsXR := [] }

/-- Function `abortXRForComparability`: no-op if an abort reason is already set;
otherwise set it, append the `xr_view_count_exceeded` abort record, flush,
deactivate and request `session.end()`. -/
def abortXRForComparability (s : XRState) : XRState :=
  if s.abortReason then s
  else
    let s := { s with abortReason := true
                      resultsXR := s.resultsXR ++ [.abort "xr_view_count_exceeded"] }
    let s := flushXRResults s
    { s with xrActive := false, endRequested := true }

/-- Function `ensureComparableXRViews`: `false` (with the abort side effect) when
the pose reports more than `MAX_COMPARABLE_XR_VIEWS` views. -/
def ensureComparableXRViews (viewCount : ℕ) (s : XRState) : XRState × Bool :=
  if s.abortReason then (s, false)
  else if viewCount > MAX_COMPARABLE_XR_VIEWS then
    (abortXRForComparability s, false)
  else (s, true)

/-- Trial close (the `now - xrStats.startWall > durationMs` branch of
`onXRFrame`): push the trial record, advance the plan cursor, deactivate,
schedule `startNextXRTrial`. -/
def closeXRTrial (s : XRState) : XRState :=
  { s with resultsXR := s.resultsXR ++ [.trial]
           xrIndex := s.xrIndex + 1
           xrActive := false
           nextPending := true }

/-- Handler `onXRFrame` from `src/app-webgl.js`: when `!xrActive || !xrStats` the
handler only does the one-shot blank clear and returns — the pose is
never fetched and the view-count guard never runs in that branch.  When
measuring, the guard runs after the sample bookkeeping, and the trial
closes once the wall clock passes the cutoff. -/
def onXRFrame (pose? : Option ℕ) (timeUp : Bool) (s : XRState) : XRState :=
  if s.xrActive = false then s
  else
    match pose? with
    | none => s
    | some viewCount =>
        let (s, ok) := ensureComparableXRViews viewCount s
        if ok = false then s
        else if timeUp then closeXRTrial s
        else s

/-- Function `startNextXRTrial`: bail out if the session is gone; end the session
if aborted; flush-and-end when the plan is exhausted; otherwise enter the
pre-idle blank phase and schedule `beginMeasuredXR`. -/
def startNextXRTrial (s : XRState) : XRState :=
  if s.sessionLive = false then s
  else if s.abortReason then { s with xrActive := false, endRequested := true }
  else if s.planLen ≤ s.xrIndex then
    { flushXRResults s with xrActive := false, endRequested := true }
  else { s with xrActive := false, measurePending := true }

/-- Function `beginMeasuredXR`: bail out if the session is gone, else start
measuring. -/
def beginMeasuredXR (s : XRState) : XRState :=
  if s.sessionLive = false then s
  else { s with xrActive := true }

/-- Function `flushUnexpectedXREnd`: once per session; when the plan cursor has
not reached the plan length, append the `xr_session_ended_early` abort
record unless the last record is already an abort; flush if anything is
buffered. -/
def flushUnexpectedXREnd (s : XRState) : XRState :=
  if s.flushed then s
  else
    let incomplete := s.xrIndex < s.planLen
    let s :=
      if incomplete ∧ ((s.resultsXR.getLast?.map XRRecord.isAbort).getD false) = false
      then { s with resultsXR := s.resultsXR ++ [.abort "xr_session_ended_early"] }
      else s
    if s.resultsXR.length > 0 then flushXRResults s else s

/-- The session `"end"` listener registered in `onSessionStarted`:
clear the session and activity flags, then `flushUnexpectedXREnd`. -/
def onSessionEnd (s : XRState) : XRState :=
  if s.sessionLive = false then s
  else flushUnexpectedXREnd { s with sessionLive := false, xrActive := false }

/-- External events driving one immersive session. -/
inductive XREvent
  /-- a compositor frame: pose (with its view count) if tracked, and
  whether the wall clock passed the measured-duration cutoff -/
  | frame (pose? : Option ℕ) (timeUp : Bool)
  /-- the `setTimeout(() => startNextXRTrial(session), …)` fires -/
  | nextTrialTimer
  /-- the `setTimeout(beginMeasuredXR, preIdleMs)` fires -/
  | beginMeasuredTimer
  /-- the session `"end"` event (external or driver-requested) -/
  | sessionEnd
deriving Repr, DecidableEq

def xrStep (s : XRState) : XREvent → XRState
  | .frame pose? timeUp => if s.sessionLive then onXRFrame pose? timeUp s else s
  | .nextTrialTimer =>
      if s.nextPending then startNextXRTrial { s with nextPending := false } else s
  | .beginMeasuredTimer =>
      if s.measurePending then beginMeasuredXR { s with measurePending := false } else s
  | .sessionEnd => onSessionEnd s

/-- The state set up by `onSessionStarted` for a fresh session with a
plan of `planLen` conditions: empty log, flags reset, cursor 0, and the
initial `startNextXRTrial` call (run after the warmup sleep) pending. -/
def xrInit (planLen : ℕ) : XRState :=
  { resultsXR := []
    flushed := false
    abortReason := false
    xrIndex := 0
    planLen := planLen
    xrActive := false
    sessionLive := true
    nextPending := true
    measurePending := false
    endRequested := false
    writes := [] }

def xrRun (planLen : ℕ) (evts : List XREvent) : XRState :=
  evts.foldl xrStep (xrInit planLen)

/-- Abort records ever appended to the session's result log: those
already serialized plus those still buffered. -/
def abortCount (s : XRState) : ℕ :=
  ((s.writes.flatMap id) ++ s.resultsXR).countP (·.isAbort)

/-! ### The per-session invariant

`XRInv` collects the facts that hold in every state reachable from
`xrInit` under arbitrary event sequences; they combine into claim C1's
at-most-one-abort property and the exactly-one-iff-incomplete property of
the webgl driver. -/

def XRInv (s : XRState) : Prop :=
  (s.flushed = false → abortCount s = 0) ∧
  (s.flushed = true → abortCount s = if s.xrIndex < s.planLen then 1 else 0) ∧
  (s.xrActive = true → s.flushed = false ∧ s.abortReason = false ∧
    s.xrIndex < s.planLen ∧ s.sessionLive = true) ∧
  (s.abortReason = true → s.flushed = true ∧ s.xrIndex < s.planLen) ∧
  (s.measurePending = true → s.sessionLive = true → s.flushed = false ∧
    s.abortReason = false ∧ s.xrIndex < s.planLen) ∧
  (s.sessionLive = false → s.xrActive = false ∧
    (s.xrIndex < s.planLen → s.flushed = true)) ∧
  (s.xrActive = true → s.measurePending = false) ∧
  (s.nextPending = true → s.measurePending = false) ∧
  (s.flushed = true → s.sessionLive = true →
    s.abortReason = true ∨ s.planLen ≤ s.xrIndex) ∧
  (s.nextPending = true → s.xrActive = false)

theorem abortCount_flushXRResults (s : XRState) :
    abortCount (flushXRResults s) = abortCount s := by
  simp [abortCount, flushXRResults, List.countP_append]

theorem abortCount_append_abort (s : XRState) (l : List XRRecord)
    (h : s.resultsXR = l) (code : String) :
    abortCount { s with resultsXR := l ++ [.abort code] } = abortCount s + 1 := by
  simp [abortCount, h, List.countP_append, XRRecord.isAbort, List.countP_cons]
  omega

theorem xrInv_init (planLen : ℕ) : XRInv (xrInit planLen) := by
  refine ⟨?_, ?_, ?_, ?_, ?_, ?_, ?_, ?_, ?_, ?_⟩ <;> simp [xrInit, abortCount]

theorem xrInv_onXRFrame (s : XRState) (pose? : Option ℕ) (timeUp : Bool)
    (h : XRInv s) : XRInv (onXRFrame pose? timeUp s) := by
  obtain ⟨h1, h2, h3, h4, h5, h6, h7, h8, h9, h10⟩ := h
  by_cases ha : s.xrActive = false
  · simpa [onXRFrame, ha] using ⟨h1, h2, h3, h4, h5, h6, h7, h8, h9, h10⟩
  · have hact : s.xrActive = true := by revert ha; cases s.xrActive <;> simp
    obtain ⟨hf, hr, hil, hlv⟩ := h3 hact
    have hmp : s.measurePending = false := h7 hact
    have hA : abortCount s = 0 := h1 hf
    rcases pose? with _ | views
    · simpa [onXRFrame, ha] using ⟨h1, h2, h3, h4, h5, h6, h7, h8, h9, h10⟩
    · by_cases hv : views > MAX_COMPARABLE_XR_VIEWS
      · have habort : onXRFrame (some views) timeUp s =
            abortXRForComparability s := by
          simp [onXRFrame, ha, ensureComparableXRViews, hr, hv]
        have hres : abortXRForComparability s =
            { s with abortReason := true
                     resultsXR := []
                     flushed := true
                     writes := s.writes ++
                       [s.resultsXR ++ [.abort "xr_view_count_exceeded"]]
                     xrActive := false
                     endRequested := true } := by
          simp [abortXRForComparability, hr, flushXRResults]
        have hcount : abortCount (abortXRForComparability s) =
            abortCount s + 1 := by
          rw [hres]
          simp [abortCount, List.countP_append, XRRecord.isAbort,
            List.countP_cons]
          omega
        rw [habort]
        refine ⟨?_, ?_, ?_, ?_, ?_, ?_, ?_, ?_, ?_, ?_⟩ <;>
          rw [hres] at hcount ⊢ <;>
          simp_all [hil]
      · by_cases ht : timeUp = true
        · have hclose : onXRFrame (some views) timeUp s = closeXRTrial s := by
            simp [onXRFrame, ha, ensureComparableXRViews, hr, hv, ht]
          have hcount : abortCount (closeXRTrial s) = abortCount s := by
            simp [abortCount, closeXRTrial, List.countP_append,
              XRRecord.isAbort, List.countP_cons]
          rw [hclose]
          refine ⟨?_, ?_, ?_, ?_, ?_, ?_, ?_, ?_, ?_, ?_⟩ <;>
            simp_all [closeXRTrial]
        · have hne : onXRFrame (some views) timeUp s = s := by
            simp [onXRFrame, ha, ensureComparableXRViews, hr, hv, ht]
          rw [hne]
          exact ⟨h1, h2, h3, h4, h5, h6, h7, h8, h9, h10⟩

theorem resultsXR_countP_zero (s : XRState) (h : abortCount s = 0) :
    s.resultsXR.countP (·.isAbort) = 0 := by
  simp only [abortCount, List.countP_append] at h
  omega

theorem lastAbort_false_of_countP_zero (l : List XRRecord)
    (h : l.countP (·.isAbort) = 0) :
    ((l.getLast?.map XRRecord.isAbort).getD false) = false := by
  cases hl : l.getLast? with
  | none => simp
  | some r =>
      obtain ⟨hne, hr⟩ := List.mem_getLast?_eq_getLast (l := l) (x := r) (by simp [hl])
      have hmem : r ∈ l := hr ▸ List.getLast_mem hne
      have := (List.countP_eq_zero.mp h) r hmem
      simp_all

theorem xrInv_startNextXRTrial (s : XRState) (h : XRInv s)
    (hnp : s.nextPending = false) : XRInv (startNextXRTrial s) := by
  obtain ⟨h1, h2, h3, h4, h5, h6, h7, h8, h9, h10⟩ := h
  by_cases hl : s.sessionLive = false
  · simpa [startNextXRTrial, hl] using ⟨h1, h2, h3, h4, h5, h6, h7, h8, h9, h10⟩
  · have hlv : s.sessionLive = true := by revert hl; cases s.sessionLive <;> simp
    by_cases hr : s.abortReason = true
    · refine ⟨?_, ?_, ?_, ?_, ?_, ?_, ?_, ?_, ?_, ?_⟩ <;>
        simp_all [startNextXRTrial, abortCount]
    · have hrf : s.abortReason = false := by revert hr; cases s.abortReason <;> simp
      by_cases hc : s.planLen ≤ s.xrIndex
      · have hres : startNextXRTrial s =
            { s with resultsXR := []
                     flushed := true
                     writes := s.writes ++ [s.resultsXR]
                     xrActive := false
                     endRequested := true } := by
          simp [startNextXRTrial, hl, hrf, hc, flushXRResults]
        have hcount : abortCount (startNextXRTrial s) = abortCount s := by
          rw [hres]; simp [abortCount, List.countP_append]
        have hmp : s.measurePending = false := by
          by_cases hm : s.measurePending = true
          · exact absurd (h5 hm hlv).2.2 (by omega)
          · revert hm; cases s.measurePending <;> simp
        have hA : abortCount s = 0 := by
          by_cases hf : s.flushed = true
          · have := h2 hf
            have hcnot : ¬ s.xrIndex < s.planLen := by omega
            simp [hcnot] at this
            exact this
          · exact h1 (by revert hf; cases s.flushed <;> simp)
        rw [hres] at hcount ⊢
        have hcnot : ¬ s.xrIndex < s.planLen := by omega
        refine ⟨by simp, ?_, by simp, ?_, ?_, ?_, by simp, ?_, ?_, by simp⟩
        · intro _
          rw [hcount, hA]
          simp [hcnot]
        · intro hr'; exact absurd hr' (by simp [hrf])
        · intro hm _; exact absurd hm (by simp [hmp])
        · intro hl'; exact absurd hl' (by simp [hlv])
        · intro _; simpa using hmp
        · intro _ _; exact Or.inr hc
      · have hres : startNextXRTrial s =
            { s with xrActive := false, measurePending := true } := by
          simp [startNextXRTrial, hl, hrf, hc]
        have hff : s.flushed = false := by
          by_cases hf : s.flushed = true
          · rcases h9 hf hlv with h' | h'
            · rw [h'] at hrf; exact absurd hrf (by simp)
            · omega
          · revert hf; cases s.flushed <;> simp
        have hA : abortCount s = 0 := h1 hff
        rw [hres]
        have hcnt : abortCount { s with xrActive := false, measurePending := true } =
            abortCount s := rfl
        refine ⟨?_, ?_, by simp, ?_, ?_, ?_, by simp, ?_, ?_, by simp⟩
        · intro _; rw [hcnt]; exact hA
        · intro hfl; simp at hfl; exact absurd hfl (by simp [hff])
        · intro hr'; simp at hr'; exact absurd hr' (by simp [hrf])
        · intro _ _
          exact ⟨hff, hrf, show s.xrIndex < s.planLen by omega⟩
        · intro hl'; simp at hl'; exact absurd hl' (by simp [hlv])
        · intro hn; simp at hn; exact absurd hn (by simp [hnp])
        · intro hfl _; simp at hfl; exact absurd hfl (by simp [hff])

theorem xrInv_flushUnexpectedXREnd (s : XRState)
    (h1 : s.flushed = false → abortCount s = 0)
    (h2 : s.flushed = true →
      abortCount s = if s.xrIndex < s.planLen then 1 else 0)
    (h4 : s.abortReason = true → s.flushed = true ∧ s.xrIndex < s.planLen)
    (h8 : s.nextPending = true → s.measurePending = false)
    (hl : s.sessionLive = false) (ha : s.xrActive = false) :
    XRInv (flushUnexpectedXREnd s) := by
  by_cases hf : s.flushed = true
  · have hres : flushUnexpectedXREnd s = s := by
      simp [flushUnexpectedXREnd, hf]
    rw [hres]
    refine ⟨?_, h2, ?_, ?_, ?_, ?_, ?_, h8, ?_, ?_⟩
    · intro hfl; exact absurd hfl (by simp [hf])
    · intro ha'; exact absurd ha' (by simp [ha])
    · intro hr; exact ⟨hf, (h4 hr).2⟩
    · intro _ hlv; exact absurd hlv (by simp [hl])
    · intro _; exact ⟨ha, fun _ => hf⟩
    · intro ha'; exact absurd ha' (by simp [ha])
    · intro _ hlv; exact absurd hlv (by simp [hl])
    · intro _; exact ha
  · have hff : s.flushed = false := by revert hf; cases s.flushed <;> simp
    have hA : abortCount s = 0 := h1 hff
    have hrf : s.abortReason = false := by
      by_cases hr : s.abortReason = true
      · exact absurd (h4 hr).1 hf
      · revert hr; cases s.abortReason <;> simp
    by_cases hc : s.xrIndex < s.planLen
    · have hlast := lastAbort_false_of_countP_zero s.resultsXR
        (resultsXR_countP_zero s hA)
      have hres : flushUnexpectedXREnd s =
          { s with resultsXR := []
                   flushed := true
                   writes := s.writes ++
                     [s.resultsXR ++ [.abort "xr_session_ended_early"]] } := by
        simp [flushUnexpectedXREnd, hff, hc, hlast, flushXRResults]
      have hcount : abortCount (flushUnexpectedXREnd s) = 1 := by
        rw [hres]
        have h1' :
            abortCount
              { s with
                resultsXR := [],
                flushed := true,
                writes := s.writes ++
                  [s.resultsXR ++ [.abort "xr_session_ended_early"]] } =
              abortCount s + 1 := by
          simp only [abortCount, List.flatMap_append, List.flatMap_cons,
            List.flatMap_nil, List.append_nil, List.countP_append,
            List.countP_nil, List.countP_cons, id_eq]
          simp [XRRecord.isAbort]
          omega
        rw [h1', hA]
      rw [hres] at hcount
      rw [hres]
      refine ⟨by simp, ?_, by simp [ha], ?_, ?_, ?_, by simp [ha], ?_, ?_,
        by simp [ha]⟩
      · intro _
        rw [hcount]
        simp [hc]
      · intro hr'; exact absurd hr' (by simp [hrf])
      · intro hm hlv'
        exact absurd hlv' (by simp [hl])
      · intro _
        exact ⟨by simpa using ha, fun _ => rfl⟩
      · intro hn
        simpa using h8 (by simpa using hn)
      · intro _ hlv'
        exact absurd hlv' (by simp [hl])
    · by_cases hne : s.resultsXR.length > 0
      · have hres : flushUnexpectedXREnd s =
            { s with resultsXR := []
                     flushed := true
                     writes := s.writes ++ [s.resultsXR] } := by
          simp [flushUnexpectedXREnd, hff, hc, hne, flushXRResults]
        have hcount : abortCount (flushUnexpectedXREnd s) = 0 := by
          rw [hres]
          have h1' :
              abortCount
                { s with
                  resultsXR := [],
                  flushed := true,
                  writes := s.writes ++ [s.resultsXR] } = abortCount s := by
            simp only [abortCount, List.flatMap_append, List.flatMap_cons,
              List.flatMap_nil, List.append_nil, List.countP_append,
              List.countP_nil, id_eq]
          rw [h1', hA]
        rw [hres] at hcount
        rw [hres]
        refine ⟨by simp, ?_, by simp [ha], ?_, ?_, ?_, by simp [ha], ?_, ?_,
          by simp [ha]⟩
        · intro _
          rw [hcount]
          simp [hc]
        · intro hr'; exact absurd hr' (by simp [hrf])
        · intro hm hlv'
          exact absurd hlv' (by simp [hl])
        · intro _
          exact ⟨by simpa using ha, fun hcc => absurd hcc (by simpa using hc)⟩
        · intro hn
          simpa using h8 (by simpa using hn)
        · intro _ hlv'
          exact absurd hlv' (by simp [hl])
      · have hres : flushUnexpectedXREnd s = s := by
          simp [flushUnexpectedXREnd, hff, hc, hne]
        rw [hres]
        refine ⟨h1, h2, ?_, h4, ?_, ?_, ?_, h8, ?_, ?_⟩
        · intro ha'; exact absurd ha' (by simp [ha])
        · intro _ hlv; exact absurd hlv (by simp [hl])
        · intro _; exact ⟨ha, fun hcc => absurd hcc hc⟩
        · intro ha'; exact absurd ha' (by simp [ha])
        · intro _ hlv; exact absurd hlv (by simp [hl])
        · intro _; exact ha

theorem xrInv_step (s : XRState) (e : XREvent) (h : XRInv s) :
    XRInv (xrStep s e) := by
  have hinv := h
  obtain ⟨h1, h2, h3, h4, h5, h6, h7, h8, h9, h10⟩ := h
  cases e with
  | frame pose? timeUp =>
      by_cases hl : s.sessionLive
      · simpa [xrStep, hl] using xrInv_onXRFrame s pose? timeUp hinv
      · simpa [xrStep, hl] using hinv
  | nextTrialTimer =>
      by_cases hp : s.nextPending
      · have hinv' : XRInv { s with nextPending := false } := by
          refine ⟨?_, ?_, ?_, ?_, ?_, ?_, ?_, ?_, ?_, ?_⟩ <;> simp_all [abortCount]
        simpa [xrStep, hp] using
          xrInv_startNextXRTrial { s with nextPending := false } hinv' rfl
      · simpa [xrStep, hp] using hinv
  | beginMeasuredTimer =>
      by_cases hp : s.measurePending
      · by_cases hl : s.sessionLive = false
        · have : xrStep s .beginMeasuredTimer = { s with measurePending := false } := by
            simp [xrStep, hp, beginMeasuredXR, hl]
          rw [this]
          refine ⟨?_, ?_, ?_, ?_, ?_, ?_, ?_, ?_, ?_, ?_⟩ <;> simp_all [abortCount]
        · have hlv : s.sessionLive = true := by
            revert hl; cases s.sessionLive <;> simp
          obtain ⟨hff, hrf, hil⟩ := h5 hp hlv
          have hnp : s.nextPending = false := by
            by_cases hn : s.nextPending = true
            · exact absurd (h8 hn) (by simp [hp])
            · revert hn; cases s.nextPending <;> simp
          have : xrStep s .beginMeasuredTimer =
              { s with measurePending := false, xrActive := true } := by
            simp [xrStep, hp, beginMeasuredXR, hl]
          rw [this]
          refine ⟨?_, ?_, ?_, ?_, ?_, ?_, ?_, ?_, ?_, ?_⟩ <;> simp_all [abortCount]
      · simpa [xrStep, hp] using hinv
  | sessionEnd =>
      by_cases hl : s.sessionLive = false
      · simpa [xrStep, onSessionEnd, hl] using hinv
      · have hstep : xrStep s .sessionEnd =
            flushUnexpectedXREnd { s with sessionLive := false, xrActive := false } := by
          simp [xrStep, onSessionEnd, hl]
        rw [hstep]
        have hcnt : abortCount { s with sessionLive := false, xrActive := false } =
            abortCount s := rfl
        exact xrInv_flushUnexpectedXREnd _
          (fun hf => by rw [hcnt]; exact h1 hf)
          (fun hf => by rw [hcnt]; exact h2 hf)
          (fun hr => ⟨(h4 hr).1, (h4 hr).2⟩)
          (fun hn => h8 hn)
          rfl rfl

theorem xrInv_run (planLen : ℕ) (evts : List XREvent) :
    XRInv (xrRun planLen evts) := by
  have : ∀ (l : List XREvent) (s : XRState), XRInv s → XRInv (l.foldl xrStep s) := by
    intro l
    induction l with
    | nil => intro s hs; exact hs
    | cons e l ih => intro s hs; exact ih _ (xrInv_step s e hs)
  exact this evts _ (xrInv_init planLen)

/-! ### The older webgpu orchestrator's session lifecycle
(`src/unnamed/part_003`)

The older orchestrator has no abort-record machinery at all: its session
`"end"` listener (lines 688–693) only resets the HUD/session/activity
flags, its `startNextXRTrial` downloads the accumulated records inline
when the plan is exhausted, and its `onXRFrame` has no view-count guard.
The same event alphabet is reused. -/

namespace WebgpuOld

structure XRSession where
  resultsXR : List XRRecord
  xrIndex : ℕ
  planLen : ℕ
  xrActive : Bool
  sessionLive : Bool
  nextPending : Bool
  measurePending : Bool
  endRequested : Bool
  writes : List (List XRRecord)
deriving Repr, DecidableEq

/-- Old `startNextXRTrial` (lines 617–684): plan exhausted ⇒ download the
accumulated records (no flushed flag, no clearing) and end; otherwise
enter the pre-idle blank and schedule `beginMeasuredXR`. -/
def startNextXRTrialFn (s : XRSession) : XRSession :=
  if s.planLen ≤ s.xrIndex then
    { s with writes := s.writes ++ [s.resultsXR]
             xrActive := false
             endRequested := true }
  else { s with xrActive := false, measurePending := true }

/-- Old `onXRFrame` (lines 724–859): no view-count guard anywhere; when
measuring and past the cutoff (and tracked), push the trial record and
schedule the next trial. -/
def onXRFrameFn (pose? : Option ℕ) (timeUp : Bool) (s : XRSession) :
    XRSession :=
  if s.xrActive = false then s
  else
    match pose? with
    | none => s
    | some _ =>
        if timeUp then
          { s with resultsXR := s.resultsXR ++ [.trial]
                   xrIndex := s.xrIndex + 1
                   xrActive := false
                   nextPending := true }
        else s

/-- Old session `"end"` listener (lines 688–693): resets the session and
activity flags only — it appends no record and downloads nothing. -/
def onSessionEndFn (s : XRSession) : XRSession :=
  if s.sessionLive = false then s
  else { s with sessionLive := false, xrActive := false }

def xrStepOld (s : XRSession) : XREvent → XRSession
  | .frame pose? timeUp =>
      if s.sessionLive then onXRFrameFn pose? timeUp s else s
  | .nextTrialTimer =>
      if s.nextPending then startNextXRTrialFn { s with nextPending := false }
      else s
  | .beginMeasuredTimer =>
      if s.measurePending then
        (if s.sessionLive then
          { s with measurePending := false, xrActive := true }
         else { s with measurePending := false })
      else s
  | .sessionEnd => onSessionEndFn s

def xrInitOld (planLen : ℕ) : XRSession :=
  { resultsXR := []
    xrIndex := 0
    planLen := planLen
    xrActive := false
    sessionLive := true
    nextPending := true
    measurePending := false
    endRequested := false
    writes := [] }

def xrRunOld (planLen : ℕ) (evts : List XREvent) : XRSession :=
  evts.foldl xrStepOld (xrInitOld planLen)

def abortCountOld (s : XRSession) : ℕ :=
  ((s.writes.flatMap id) ++ s.resultsXR).countP (·.isAbort)

theorem abortCountOld_step (s : XRSession) (e : XREvent)
    (h : abortCountOld s = 0) : abortCountOld (xrStepOld s e) = 0 := by
  cases e with
  | frame pose? timeUp =>
      by_cases hl : s.sessionLive
      · simp only [xrStepOld, hl, if_true]
        by_cases ha : s.xrActive = false
        · simpa [onXRFrameFn, ha] using h
        · rcases pose? with _ | v
          · simpa [onXRFrameFn, ha] using h
          · by_cases ht : timeUp = true
            · have hres : onXRFrameFn (some v) timeUp s =
                  { s with resultsXR := s.resultsXR ++ [.trial]
                           xrIndex := s.xrIndex + 1
                           xrActive := false
                           nextPending := true } := by
                simp [onXRFrameFn, ha, ht]
              rw [hres]
              simp only [abortCountOld, List.countP_append, List.countP_cons,
                List.countP_nil, XRRecord.isAbort,
                if_neg Bool.false_eq_true_eq_False] at h ⊢
              omega
            · simpa [onXRFrameFn, ha, ht] using h
      · simpa [xrStepOld, hl] using h
  | nextTrialTimer =>
      by_cases hp : s.nextPending
      · by_cases hc : s.planLen ≤ s.xrIndex
        · have hres : xrStepOld s .nextTrialTimer =
              { s with nextPending := false
                       writes := s.writes ++ [s.resultsXR]
                       xrActive := false
                       endRequested := true } := by
            simp [xrStepOld, hp, startNextXRTrialFn, hc]
          rw [hres]
          simp only [abortCountOld, List.flatMap_append, List.flatMap_cons,
            List.flatMap_nil, List.append_nil, List.countP_append, id_eq] at h ⊢
          omega
        · have hres : xrStepOld s .nextTrialTimer =
              { s with nextPending := false
                       xrActive := false
                       measurePending := true } := by
            simp [xrStepOld, hp, startNextXRTrialFn, hc]
          rw [hres]
          simpa [abortCountOld] using h
      · simpa [xrStepOld, hp] using h
  | beginMeasuredTimer =>
      by_cases hp : s.measurePending
      · by_cases hl : s.sessionLive <;> simpa [xrStepOld, hp, hl, abortCountOld] using h
      · simpa [xrStepOld, hp] using h
  | sessionEnd =>
      by_cases hl : s.sessionLive = false <;>
        simpa [xrStepOld, onSessionEndFn, hl, abortCountOld] using h

theorem abortCountOld_run (planLen : ℕ) (evts : List XREvent) :
    abortCountOld (xrRunOld planLen evts) = 0 := by
  have : ∀ (l : List XREvent) (s : XRSession), abortCountOld s = 0 →
      abortCountOld (l.foldl xrStepOld s) = 0 := by
    intro l
    induction l with
    | nil => intro s hs; exact hs
    | cons e l ih => intro s hs; exact ih _ (abortCountOld_step s e hs)
  exact this evts _ (by simp [xrInitOld, abortCountOld])

end WebgpuOld

/-- C1 — the claim as stated fails on the repository: in the older webgpu
orchestrator a session that ends while the plan is incomplete emits zero
Abort Records, not exactly one.  Concretely, with a 1-condition plan the
external session end right after session start leaves the log without any
abort record. -/
theorem c1_abort_record_counterexample :
    (WebgpuOld.xrRunOld 1 [.sessionEnd]).sessionLive = false ∧
      (WebgpuOld.xrRunOld 1 [.sessionEnd]).xrIndex <
        (WebgpuOld.xrRunOld 1 [.sessionEnd]).planLen ∧
      WebgpuOld.abortCountOld (WebgpuOld.xrRunOld 1 [.sessionEnd]) = 0 ∧
      WebgpuOld.abortCountOld (WebgpuOld.xrRunOld 1 [.sessionEnd]) ≠ 1 := by
  decide

/-- C1 (amended) — in the webgl orchestrator (`src/app-webgl.js`) at most
one Abort Record is ever appended to a session's result log under any
event sequence, and once the session has ended, exactly one Abort Record
was emitted if and only if the plan cursor had not reached the plan
length; the older webgpu orchestrator (`src/unnamed/part_003`) never
appends an Abort Record at all (so it satisfies at-most-one but not the
exactly-one-iff-incomplete biconditional). -/
theorem c1_abort_record_invariant :
    (∀ (planLen : ℕ) (evts : List XREvent),
      abortCount (xrRun planLen evts) ≤ 1 ∧
        ((xrRun planLen evts).sessionLive = false →
          (abortCount (xrRun planLen evts) = 1 ↔
            (xrRun planLen evts).xrIndex < (xrRun planLen evts).planLen))) ∧
      (∀ (planLen : ℕ) (evts : List XREvent),
        WebgpuOld.abortCountOld (WebgpuOld.xrRunOld planLen evts) = 0) := by
  refine ⟨?_, WebgpuOld.abortCountOld_run⟩
  intro planLen evts
  obtain ⟨h1, h2, h3, h4, h5, h6, h7, h8, h9, h10⟩ := xrInv_run planLen evts
  constructor
  · by_cases hf : (xrRun planLen evts).flushed = true
    · have := h2 hf
      by_cases hc : (xrRun planLen evts).xrIndex < (xrRun planLen evts).planLen <;>
        simp [hc] at this <;> omega
    · have := h1 (by revert hf; cases (xrRun planLen evts).flushed <;> simp)
      omega
  · intro hend
    constructor
    · intro hA1
      by_cases hf : (xrRun planLen evts).flushed = true
      · have := h2 hf
        by_cases hc : (xrRun planLen evts).xrIndex < (xrRun planLen evts).planLen
        · exact hc
        · simp [hc] at this; omega
      · have := h1 (by revert hf; cases (xrRun planLen evts).flushed <;> simp)
        omega
    · intro hc
      have hfl := (h6 hend).2 hc
      have := h2 hfl
      simpa [hc] using this

/-- Witness for C1 (amended): a 1-condition plan whose session is ended
externally right after start — the ended-session hypothesis discharged
concretely. -/
theorem c1_abort_record_invariant_witness :
    abortCount (xrRun 1 [.sessionEnd]) ≤ 1 ∧
      (abortCount (xrRun 1 [.sessionEnd]) = 1 ↔
        (xrRun 1 [.sessionEnd]).xrIndex < (xrRun 1 [.sessionEnd]).planLen) :=
  ⟨(c1_abort_record_invariant.1 1 [.sessionEnd]).1,
    (c1_abort_record_invariant.1 1 [.sessionEnd]).2 (by decide)⟩

/-- C2 — the claim as stated fails on the webgl driver: a frame delivered
during the pre-idle blank phase (`xrActive = false`, `measurePending`)
whose pose reports 3 views (exceeding the maximum of 2) leaves the driver
state completely unchanged — no transition to aborting, no abort
record — because `onXRFrame` returns from the `!xrActive` branch without
ever fetching the pose. -/
theorem c2_blank_phase_counterexample :
    3 > MAX_COMPARABLE_XR_VIEWS ∧
      (xrRun 1 [.nextTrialTimer]).xrActive = false ∧
      (xrRun 1 [.nextTrialTimer]).measurePending = true ∧
      xrRun 1 [.nextTrialTimer, .frame (some 3) false] =
        xrRun 1 [.nextTrialTimer] ∧
      (xrRun 1 [.nextTrialTimer, .frame (some 3) false]).abortReason = false ∧
      abortCount (xrRun 1 [.nextTrialTimer, .frame (some 3) false]) = 0 := by
  decide

/-- C2 (amended) — in the webgl driver the comparability guard runs only
while a trial is measuring: frames delivered in any non-measuring
sub-state (pre-idle blank, inter-trial pause) are not inspected and leave
the state unchanged, while during measuring a viewer pose with more than
the configured maximum of 2 views transitions the driver to aborting:
abort reason set, flushed, `session.end()` requested, measuring stopped
and exactly one abort record appended. -/
theorem c2_view_guard_measuring_only :
    (∀ (s : XRState) (pose? : Option ℕ) (timeUp : Bool),
      s.xrActive = false → onXRFrame pose? timeUp s = s) ∧
      (∀ (s : XRState) (views : ℕ) (timeUp : Bool),
        s.xrActive = true → s.abortReason = false →
        views > MAX_COMPARABLE_XR_VIEWS →
          (onXRFrame (some views) timeUp s).abortReason = true ∧
          (onXRFrame (some views) timeUp s).flushed = true ∧
          (onXRFrame (some views) timeUp s).endRequested = true ∧
          (onXRFrame (some views) timeUp s).xrActive = false ∧
          abortCount (onXRFrame (some views) timeUp s) = abortCount s + 1) := by
  constructor
  · intro s pose? timeUp ha
    simp [onXRFrame, ha]
  · intro s views timeUp ha hr hv
    have hres : onXRFrame (some views) timeUp s =
        { s with abortReason := true
                 resultsXR := []
                 flushed := true
                 writes := s.writes ++
                   [s.resultsXR ++ [.abort "xr_view_count_exceeded"]]
                 xrActive := false
                 endRequested := true } := by
      simp [onXRFrame, ha, ensureComparableXRViews, hr, hv,
        abortXRForComparability, flushXRResults]
    rw [hres]
    refine ⟨rfl, rfl, rfl, rfl, ?_⟩
    simp only [abortCount, List.flatMap_append, List.flatMap_cons,
      List.flatMap_nil, List.append_nil, List.countP_append,
      List.countP_nil, List.countP_cons, id_eq]
    simp [XRRecord.isAbort]
    omega

/-- Witness for C2 (amended): a 3-view frame in the blank phase is a
no-op; a 3-view frame while measuring aborts. -/
theorem c2_view_guard_measuring_only_witness :
    onXRFrame (some 3) false (xrRun 1 [.nextTrialTimer]) =
        xrRun 1 [.nextTrialTimer] ∧
      (onXRFrame (some 3) false
        (xrRun 1 [.nextTrialTimer, .beginMeasuredTimer])).abortReason = true :=
  ⟨c2_view_guard_measuring_only.1 _ (some 3) false (by decide),
    (c2_view_guard_measuring_only.2
      (xrRun 1 [.nextTrialTimer, .beginMeasuredTimer]) 3 false
      (by decide) (by decide) (by decide)).1⟩

/-- C6 — the claim as stated fails on the code: `flushXRResults` itself
has no guard, so calling it a second time on the same session does
perform an additional write to the output sink (a second `downloadText`
call, with an empty JSONL payload).  Concretely, after a comparability
abort has already flushed once, a direct second call grows the sink write
list from 1 to 2. -/
theorem c6_double_flush_counterexample :
    (xrRun 1 [.nextTrialTimer, .beginMeasuredTimer,
        .frame (some 3) false]).flushed = true ∧
      (xrRun 1 [.nextTrialTimer, .beginMeasuredTimer,
        .frame (some 3) false]).writes.length = 1 ∧
      (flushXRResults (xrRun 1 [.nextTrialTimer, .beginMeasuredTimer,
        .frame (some 3) false])).writes.length = 2 ∧
      (flushXRResults (xrRun 1 [.nextTrialTimer, .beginMeasuredTimer,
          .frame (some 3) false])).writes ≠
        (xrRun 1 [.nextTrialTimer, .beginMeasuredTimer,
          .frame (some 3) false]).writes := by
  decide

/-- C6 (amended) — a second direct call to `flushXRResults` serializes no
additional record (its payload is empty, the overall serialized record
stream and terminal-record count are unchanged) but does perform one
additional sink write; record-level idempotence holds, write-level
idempotence does not.  The per-session flushed flag makes the guarded
flush path (`flushUnexpectedXREnd`) a true no-op. -/
theorem c6_flush_idempotence :
    (∀ s : XRState, (flushXRResults (flushXRResults s)).writes =
        (flushXRResults s).writes ++ [[]]) ∧
      (∀ s : XRState, (flushXRResults (flushXRResults s)).writes.flatMap id =
        (flushXRResults s).writes.flatMap id) ∧
      (∀ s : XRState, abortCount (flushXRResults (flushXRResults s)) =
        abortCount (flushXRResults s)) ∧
      (∀ s : XRState, s.flushed = true → flushUnexpectedXREnd s = s) := by
  refine ⟨?_, ?_, ?_, ?_⟩
  · intro s; rfl
  · intro s; simp [flushXRResults]
  · intro s; simp [abortCount, flushXRResults, List.countP_append]
  · intro s hf; simp [flushUnexpectedXREnd, hf]

/-- Witness for C6 (amended): after the comparability abort's flush,
exactly one terminal record is in the serialized stream, and the guarded
flush path is a no-op on that state. -/
theorem c6_flush_idempotence_witness :
    (xrRun 1 [.nextTrialTimer, .beginMeasuredTimer,
        .frame (some 3) false]).flushed = true ∧
      abortCount (xrRun 1 [.nextTrialTimer, .beginMeasuredTimer,
        .frame (some 3) false]) = 1 ∧
      flushUnexpectedXREnd (xrRun 1 [.nextTrialTimer, .beginMeasuredTimer,
          .frame (some 3) false]) =
        xrRun 1 [.nextTrialTimer, .beginMeasuredTimer, .frame (some 3) false] :=
  ⟨by decide, by decide,
    c6_flush_idempotence.2.2.2
      (xrRun 1 [.nextTrialTimer, .beginMeasuredTimer, .frame (some 3) false])
      (by decide)⟩

/-! ## The wire format: JSON values and the emitted records

`JSValue` models the JSON values flowing into records and through the
validator.  Numbers are `ℚ` (no `NaN` is ever placed in a record on the
modelled paths, so `Number.isNaN` is constantly false and
`Number.isFinite` constantly true on these values).  A record object is
its field list; `hasOwnFields` is `Object.prototype.hasOwnProperty`. -/

inductive JSValue
  | null
  | bool (b : Bool)
  | num (q : ℚ)
  | str (s : String)
  | arr (elems : List JSValue)
  | obj (fields : List (String × JSValue))

def hasOwnFields (fields : List (String × JSValue)) (key : String) : Bool :=
  fields.any (fun f => f.1 = key)

/-- Assoc lookup, `obj[key]` (`none` = absent ⇒ JS `undefined`). -/
def getField (fields : List (String × JSValue)) (key : String) :
    Option JSValue :=
  (fields.find? (fun f => f.1 = key)).map (·.2)

/-- Constant `SCHEMA_VERSION` of `src/app-webgl.js` / `src/app-webgpu.js`; the
older orchestrator (`src/unnamed/part_003`) defines no such constant. -/
def SCHEMA_VERSION : String := "1.1.0"

/-- The configuration- and environment-derived values a trial meta block
carries; opaque to the claims, so each is an arbitrary `JSValue`. -/
structure HarnessConfig where
  modelUrl : JSValue
  instances : JSValue
  trial : JSValue
  trials : JSValue
  durationMs : JSValue
  warmupMs : JSValue
  cooldownMs : JSValue
  preIdleMs : JSValue
  postIdleMs : JSValue
  betweenInstancesMs : JSValue
  layout : JSValue
  seed : JSValue
  shuffle : JSValue
  spacing : JSValue
  collectPerf : JSValue
  perfDetail : JSValue
  condition_index : JSValue
  condition_count : JSValue
  suiteId : JSValue
  startedAt : JSValue
  asset_timing : JSValue
  asset_meta : JSValue
  env : JSValue

/-- Object `stats.meta` of `runCanvasTrial` in `src/app-webgl.js`
(lines 697–723), keys in source order. -/
def webglCanvasMeta (c : HarnessConfig) : List (String × JSValue) :=
  [("schema_version", .str SCHEMA_VERSION), ("api", .str "webgl2"),
   ("mode", .str "canvas"), ("modelUrl", c.modelUrl),
   ("instances", c.instances), ("trial", c.trial), ("trials", c.trials),
   ("durationMs", c.durationMs), ("warmupMs", c.warmupMs),
   ("cooldownMs", c.cooldownMs), ("preIdleMs", c.preIdleMs),
   ("postIdleMs", c.postIdleMs),
   ("betweenInstancesMs", c.betweenInstancesMs), ("layout", c.layout),
   ("seed", c.seed), ("shuffle", c.shuffle), ("spacing", c.spacing),
   ("collectPerf", c.collectPerf), ("perfDetail", c.perfDetail),
   ("condition_index", c.condition_index),
   ("condition_count", c.condition_count), ("suiteId", c.suiteId),
   ("startedAt", c.startedAt), ("asset_timing", c.asset_timing),
   ("asset_meta", c.asset_meta), ("env", c.env)]

/-- The canvas trial record `{ ...stats.meta, summary, extras, perf }`
emitted by `src/app-webgl.js`. -/
def webglCanvasRecord (c : HarnessConfig)
    (summary extras perf : JSValue) : List (String × JSValue) :=
  webglCanvasMeta c ++
    [("summary", summary), ("extras", extras), ("perf", perf)]

/-- Object `xrStats.meta` of `startNextXRTrial` in `src/app-webgl.js`
(lines 1069–1095): same fields as the canvas meta with `mode = "xr"`. -/
def webglXRMeta (c : HarnessConfig) : List (String × JSValue) :=
  [("schema_version", .str SCHEMA_VERSION), ("api", .str "webgl2"),
   ("mode", .str "xr"), ("modelUrl", c.modelUrl),
   ("instances", c.instances), ("trial", c.trial), ("trials", c.trials),
   ("durationMs", c.durationMs), ("warmupMs", c.warmupMs),
   ("cooldownMs", c.cooldownMs), ("preIdleMs", c.preIdleMs),
   ("postIdleMs", c.postIdleMs),
   ("betweenInstancesMs", c.betweenInstancesMs), ("layout", c.layout),
   ("seed", c.seed), ("shuffle", c.shuffle), ("spacing", c.spacing),
   ("collectPerf", c.collectPerf), ("perfDetail", c.perfDetail),
   ("condition_index", c.condition_index),
   ("condition_count", c.condition_count), ("suiteId", c.suiteId),
   ("startedAt", c.startedAt), ("asset_timing", c.asset_timing),
   ("asset_meta", c.asset_meta), ("env", c.env)]

/-- The XR trial record of `src/app-webgl.js` (`onXRFrame`, trial close,
lines 1313–1328). -/
def webglXRRecord (c : HarnessConfig)
    (summary extras perf cadence pixels viewports : JSValue) :
    List (String × JSValue) :=
  webglXRMeta c ++
    [("summary", summary), ("extras", extras), ("perf", perf),
     ("timing_primary_source", .str "xr_callback_t"),
     ("timing_secondary_source", .str "performance.now"),
     ("xr_cadence_secondary", cadence),
     ("xr_effective_pixels", pixels),
     ("xr_viewports", viewports)]

/-- The fields specific to `buildXRAbortRecord` in `src/app-webgl.js`
(lines 950–998). -/
structure AbortFields where
  abort_code : JSValue
  abort_reason : JSValue
  observed_view_count : JSValue
  expected_max_views : JSValue
  partial_trial : JSValue
  xr_effective_pixels : JSValue
  xr_cadence_secondary : JSValue
  xr_viewports : JSValue

/-- The Abort Record built by `buildXRAbortRecord` in `src/app-webgl.js`,
keys in source order. -/
def webglXRAbortRecord (c : HarnessConfig) (a : AbortFields) :
    List (String × JSValue) :=
  [("schema_version", .str SCHEMA_VERSION), ("api", .str "webgl2"),
   ("mode", .str "xr"), ("aborted", .bool true),
   ("abort_code", a.abort_code), ("abort_reason", a.abort_reason),
   ("observed_view_count", a.observed_view_count),
   ("expected_max_views", a.expected_max_views), ("suiteId", c.suiteId),
   ("modelUrl", c.modelUrl), ("instances", c.instances),
   ("trial", c.trial), ("trials", c.trials),
   ("durationMs", c.durationMs), ("warmupMs", c.warmupMs),
   ("cooldownMs", c.cooldownMs), ("preIdleMs", c.preIdleMs),
   ("postIdleMs", c.postIdleMs),
   ("betweenInstancesMs", c.betweenInstancesMs), ("layout", c.layout),
   ("seed", c.seed), ("shuffle", c.shuffle), ("spacing", c.spacing),
   ("collectPerf", c.collectPerf), ("perfDetail", c.perfDetail),
   ("condition_index", c.condition_index),
   ("condition_count", c.condition_count), ("startedAt", c.startedAt),
   ("partial_trial", a.partial_trial), ("asset_timing", c.asset_timing),
   ("asset_meta", c.asset_meta), ("env", c.env),
   ("xr_effective_pixels", a.xr_effective_pixels),
   ("xr_cadence_secondary", a.xr_cadence_secondary),
   ("xr_viewports", a.xr_viewports)]

/-- Object `stats.meta` of `runCanvasTrial` in the older webgpu orchestrator
(`src/unnamed/part_003`, lines 400–426): no `schema_version` key (the
literal `suiteId` key appears twice in the source; a JS object keeps a
single property, transcribed once). -/
def part003CanvasMeta (c : HarnessConfig) : List (String × JSValue) :=
  [("api", .str "webgpu"), ("mode", .str "canvas"),
   ("modelUrl", c.modelUrl), ("instances", c.instances),
   ("trial", c.trial), ("trials", c.trials),
   ("durationMs", c.durationMs), ("warmupMs", c.warmupMs),
   ("cooldownMs", c.cooldownMs), ("preIdleMs", c.preIdleMs),
   ("postIdleMs", c.postIdleMs),
   ("betweenInstancesMs", c.betweenInstancesMs), ("layout", c.layout),
   ("seed", c.seed), ("shuffle", c.shuffle), ("spacing", c.spacing),
   ("collectPerf", c.collectPerf), ("perfDetail", c.perfDetail),
   ("condition_index", c.condition_index),
   ("condition_count", c.condition_count), ("suiteId", c.suiteId),
   ("startedAt", c.startedAt), ("asset_timing", c.asset_timing),
   ("asset_meta", c.asset_meta), ("env", c.env)]

def part003CanvasRecord (c : HarnessConfig)
    (summary extras perf : JSValue) : List (String × JSValue) :=
  part003CanvasMeta c ++
    [("summary", summary), ("extras", extras), ("perf", perf)]

/-- Object `xrStats.meta` of `startNextXRTrial` in the older webgpu orchestrator
(`src/unnamed/part_003`, lines 635–657): no `schema_version`, no
`preIdleMs`/`postIdleMs`, no `suiteId`. -/
def part003XRMeta (c : HarnessConfig) : List (String × JSValue) :=
  [("api", .str "webgpu"), ("mode", .str "xr"),
   ("modelUrl", c.modelUrl), ("instances", c.instances),
   ("trial", c.trial), ("trials", c.trials),
   ("durationMs", c.durationMs), ("warmupMs", c.warmupMs),
   ("cooldownMs", c.cooldownMs),
   ("betweenInstancesMs", c.betweenInstancesMs), ("layout", c.layout),
   ("seed", c.seed), ("shuffle", c.shuffle), ("spacing", c.spacing),
   ("collectPerf", c.collectPerf), ("perfDetail", c.perfDetail),
   ("condition_index", c.condition_index),
   ("condition_count", c.condition_count), ("startedAt", c.startedAt),
   ("asset_timing", c.asset_timing), ("asset_meta", c.asset_meta),
   ("env", c.env)]

def part003XRRecord (c : HarnessConfig)
    (summary extras perf viewports : JSValue) : List (String × JSValue) :=
  part003XRMeta c ++
    [("summary", summary), ("extras", extras), ("perf", perf),
     ("xr_viewports", viewports)]

/-- C4 — every record emitted by the webgl orchestrator carries the
`schema_version` string tag, but no record emitted by the webgpu
orchestrator of `src/unnamed/part_003` does: its canvas and XR trial
records lack the key entirely (and it builds no abort records at all),
contradicting the repository's own schema documentation and validator,
which require `schema_version` on every record. -/
theorem c4_schema_version_presence :
    (∀ (c : HarnessConfig) (su ex pf : JSValue),
      hasOwnFields (webglCanvasRecord c su ex pf) "schema_version" = true) ∧
      (∀ (c : HarnessConfig) (su ex pf ca px vp : JSValue),
        hasOwnFields (webglXRRecord c su ex pf ca px vp)
          "schema_version" = true) ∧
      (∀ (c : HarnessConfig) (a : AbortFields),
        hasOwnFields (webglXRAbortRecord c a) "schema_version" = true) ∧
      (∀ (c : HarnessConfig) (su ex pf : JSValue),
        hasOwnFields (part003CanvasRecord c su ex pf)
          "schema_version" = false) ∧
      (∀ (c : HarnessConfig) (su ex pf vp : JSValue),
        hasOwnFields (part003XRRecord c su ex pf vp)
          "schema_version" = false) := by
  refine ⟨?_, ?_, ?_, ?_, ?_⟩ <;> intros <;>
    simp [hasOwnFields, webglCanvasRecord, webglCanvasMeta, webglXRRecord,
      webglXRMeta, webglXRAbortRecord, part003CanvasRecord, part003CanvasMeta,
      part003XRRecord, part003XRMeta]

/-! ## The record validator (`src/unnamed/part_004`,
`tools/validate-results.mjs`)

Error locations `loc` (`file:line`, extended as `loc ++ "." ++ key`) are
modelled as structured paths `List String`, with `[]` the record's
top-level location.  The three error shapes of the script are
`missing` (`pushMissingError` / `checkFieldPresence`'s push),
`typeErr` (`pushTypeError`) and `custom` (every other `errors.push`; the
exact message text carries no weight in the claims so it is abbreviated).
`Number.isNaN` is constantly false and `Number.isFinite` constantly true
on `ℚ`-modelled numbers.  `Date.parse` is environment behaviour and is
passed in as `dateParseIsNaN`. -/

inductive VErr
  | missing (path : List String) (key : String)
  | typeErr (path : List String) (key expected actual : String)
  | custom (path : List String) (msg : String)
deriving Repr, DecidableEq

def SUPPORTED_SCHEMA_VERSIONS : List String := ["1.0.0", "1.1.0"]
def VALID_APIS : List String := ["webgl2", "webgpu"]
def VALID_MODES : List String := ["canvas", "xr"]

def isObjectV : JSValue → Bool
  | .obj _ => true
  | _ => false

/-- Function `typeName` of the script (`array` / `null` / `typeof`). -/
def typeNameV : JSValue → String
  | .arr _ => "array"
  | .null => "null"
  | .obj _ => "object"
  | .bool _ => "boolean"
  | .num _ => "number"
  | .str _ => "string"

/-- JS `typeof` (arrays and `null` are `"object"`). -/
def jsTypeof : JSValue → String
  | .arr _ => "object"
  | .null => "object"
  | .obj _ => "object"
  | .bool _ => "boolean"
  | .num _ => "number"
  | .str _ => "string"

/-- Lookup `obj[key]` where an absent key reads as `undefined`; the script only
ever reads present keys or guards with `typeof`/strict equality against
non-`undefined` values, so `none` is threaded instead of a separate
`undefined` constructor. -/
def jsGet (o : List (String × JSValue)) (k : String) : Option JSValue :=
  getField o k

/-- Function `checkType(value, expected)`. -/
def checkTypeV (v : JSValue) (expected : String) : Bool :=
  if expected = "array" then (match v with | .arr _ => true | _ => false)
  else if expected = "object" then isObjectV v
  else if expected = "null" then (match v with | .null => true | _ => false)
  else jsTypeof v = expected

/-- Function `checkFieldPresence`'s error push (it returns `false` exactly when
this is nonempty). -/
def presErr (o : List (String × JSValue)) (k : String)
    (loc : List String) : List VErr :=
  if hasOwnFields o k = false then [.missing loc k] else []

def checkStringV (o : List (String × JSValue)) (k : String)
    (loc : List String) : List VErr :=
  if hasOwnFields o k = false then [.missing loc k]
  else match jsGet o k with
    | some (.str _) => []
    | some v => [.typeErr loc k "string" (typeNameV v)]
    | none => []

def checkBooleanV (o : List (String × JSValue)) (k : String)
    (loc : List String) : List VErr :=
  if hasOwnFields o k = false then [.missing loc k]
  else match jsGet o k with
    | some (.bool _) => []
    | some v => [.typeErr loc k "boolean" (typeNameV v)]
    | none => []

/-- Function `checkNumber` with `allowNull = false` (`Number.isNaN` never holds on
the `ℚ` model). -/
def checkNumberV (o : List (String × JSValue)) (k : String)
    (loc : List String) : List VErr :=
  if hasOwnFields o k = false then [.missing loc k]
  else match jsGet o k with
    | some (.num _) => []
    | some v => [.typeErr loc k "number" (typeNameV v)]
    | none => []

def checkObjectV (o : List (String × JSValue)) (k : String)
    (loc : List String) : List VErr :=
  if hasOwnFields o k = false then [.missing loc k]
  else match jsGet o k with
    | some (.obj _) => []
    | some v => [.typeErr loc k "object" (typeNameV v)]
    | none => []

def checkStringOrNullV (o : List (String × JSValue)) (k : String)
    (loc : List String) : List VErr :=
  if hasOwnFields o k = false then [.missing loc k]
  else match jsGet o k with
    | some .null => []
    | some (.str _) => []
    | some v => [.typeErr loc k "string|null" (typeNameV v)]
    | none => []

/-- Function `checkNumberOrNull` (`Number.isFinite` always holds on `ℚ`). -/
def checkNumberOrNullV (o : List (String × JSValue)) (k : String)
    (loc : List String) : List VErr :=
  if hasOwnFields o k = false then [.missing loc k]
  else match jsGet o k with
    | some .null => []
    | some (.num _) => []
    | some v => [.typeErr loc k "number|null" (typeNameV v)]
    | none => []

def checkBooleanOrNullV (o : List (String × JSValue)) (k : String)
    (loc : List String) : List VErr :=
  if hasOwnFields o k = false then [.missing loc k]
  else match jsGet o k with
    | some .null => []
    | some (.bool _) => []
    | some v => [.typeErr loc k "boolean|null" (typeNameV v)]
    | none => []

def checkObjectOrNullV (o : List (String × JSValue)) (k : String)
    (loc : List String) : List VErr :=
  if hasOwnFields o k = false then [.missing loc k]
  else match jsGet o k with
    | some .null => []
    | some (.obj _) => []
    | some v => [.typeErr loc k "object|null" (typeNameV v)]
    | none => []

def checkArrayOrNullV (o : List (String × JSValue)) (k : String)
    (loc : List String) : List VErr :=
  if hasOwnFields o k = false then [.missing loc k]
  else match jsGet o k with
    | some .null => []
    | some (.arr _) => []
    | some v => [.typeErr loc k "array|null" (typeNameV v)]
    | none => []

def checkOneOfTypesV (o : List (String × JSValue)) (k : String)
    (types : List String) (loc : List String) : List VErr :=
  if hasOwnFields o k = false then [.missing loc k]
  else match jsGet o k with
    | some v =>
        if types.any (checkTypeV v) = false then
          [.typeErr loc k (String.intercalate " or " types) (typeNameV v)]
        else []
    | none => []

def checkEnumV (o : List (String × JSValue)) (k : String)
    (allowed : List String) (loc : List String) : List VErr :=
  if hasOwnFields o k = false then [.missing loc k]
  else match jsGet o k with
    | some (.str s) =>
        if allowed.contains s = false then
          [.custom loc (k ++ ": not in enum")]
        else []
    | some _ => [.custom loc (k ++ ": not in enum")]
    | none => []

/-- Function `checkIfPresent(obj, key, checker, loc, errors)`. -/
def checkIfPresentV (o : List (String × JSValue)) (k : String)
    (checker : List (String × JSValue) → String → List String → List VErr)
    (loc : List String) : List VErr :=
  if hasOwnFields o k = false then [] else checker o k loc

def validateAssetTiming (record : List (String × JSValue))
    (loc : List String) : List VErr :=
  if hasOwnFields record "asset_timing" = false then
    [.missing loc "asset_timing"]
  else match jsGet record "asset_timing" with
    | some (.obj fs) =>
        checkNumberV fs "fetch_ms" (loc ++ ["asset_timing"]) ++
        checkNumberV fs "parse_ms" (loc ++ ["asset_timing"]) ++
        checkNumberV fs "total_ms" (loc ++ ["asset_timing"])
    | some v => [.typeErr loc "asset_timing" "object" (typeNameV v)]
    | none => []

def validateAssetMeta (record : List (String × JSValue))
    (loc : List String) : List VErr :=
  if hasOwnFields record "asset_meta" = false then
    [.missing loc "asset_meta"]
  else match jsGet record "asset_meta" with
    | some (.obj fs) =>
        checkNumberV fs "vertex_count" (loc ++ ["asset_meta"]) ++
        checkNumberV fs "index_count" (loc ++ ["asset_meta"]) ++
        checkNumberV fs "triangle_count" (loc ++ ["asset_meta"]) ++
        checkBooleanV fs "has_indices" (loc ++ ["asset_meta"])
    | some v => [.typeErr loc "asset_meta" "object" (typeNameV v)]
    | none => []

/-- The `env.rest` block of `validateEnv`. -/
def validateEnvRest (value : List (String × JSValue))
    (envLoc : List String) : List VErr :=
  if hasOwnFields value "rest" = false then []
  else match jsGet value "rest" with
    | some .null => []
    | some (.obj rest) =>
        checkNumberOrNullV rest "restStartTs" (envLoc ++ ["rest"]) ++
        checkNumberOrNullV rest "restEndTs" (envLoc ++ ["rest"]) ++
        checkNumberOrNullV rest "restElapsedMs" (envLoc ++ ["rest"]) ++
        checkNumberOrNullV rest "recommendedRestMs" (envLoc ++ ["rest"]) ++
        checkStringOrNullV rest "previousSuiteId" (envLoc ++ ["rest"]) ++
        checkStringOrNullV rest "previousApi" (envLoc ++ ["rest"]) ++
        checkStringOrNullV rest "previousRunMode" (envLoc ++ ["rest"]) ++
        checkStringOrNullV rest "previousFinalPhase" (envLoc ++ ["rest"]) ++
        checkStringOrNullV rest "previousOutFile" (envLoc ++ ["rest"]) ++
        checkStringOrNullV rest "previousUrl" (envLoc ++ ["rest"])
    | some v => [.typeErr envLoc "rest" "object or null" (typeNameV v)]
    | none => []

def validateEnv (record : List (String × JSValue))
    (loc : List String) : List VErr :=
  if hasOwnFields record "env" = false then [.missing loc "env"]
  else match jsGet record "env" with
    | some (.obj value) =>
        let envLoc := loc ++ ["env"]
        let strictV11 :=
          match jsGet record "schema_version" with
          | some (.str s) => s == "1.1.0"
          | _ => false
        checkStringV value "api" envLoc ++
        checkStringV value "powerPreferenceRequested" envLoc ++
        checkBooleanV value "hudEnabled" envLoc ++
        checkNumberV value "hudHz" envLoc ++
        checkNumberV value "xr_expected_max_views" envLoc ++
        checkStringV value "ua" envLoc ++
        (if strictV11 then
          checkNumberV value "xr_scale_factor_requested" envLoc ++
          checkNumberOrNullV value "xr_scale_factor_applied" envLoc ++
          checkStringV value "runMode" envLoc ++
          checkObjectOrNullV value "order_control" envLoc ++
          checkObjectOrNullV value "uaData" envLoc ++
          checkStringOrNullV value "platform" envLoc ++
          checkStringOrNullV value "language" envLoc ++
          checkArrayOrNullV value "languages" envLoc ++
          checkNumberOrNullV value "hardwareConcurrency" envLoc ++
          checkNumberOrNullV value "deviceMemory" envLoc ++
          checkNumberOrNullV value "maxTouchPoints" envLoc ++
          checkBooleanV value "isSecureContext" envLoc ++
          checkBooleanV value "crossOriginIsolated" envLoc ++
          checkStringV value "visibilityState" envLoc ++
          checkNumberV value "dpr" envLoc ++
          checkObjectV value "canvas_css" envLoc ++
          checkObjectV value "canvas_px" envLoc ++
          checkStringV value "url" envLoc
        else
          checkIfPresentV value "xr_scale_factor_requested" checkNumberV envLoc ++
          checkIfPresentV value "xr_scale_factor_applied" checkNumberOrNullV envLoc ++
          checkIfPresentV value "runMode" checkStringV envLoc ++
          checkIfPresentV value "order_control" checkObjectOrNullV envLoc ++
          checkIfPresentV value "uaData" checkObjectOrNullV envLoc ++
          checkIfPresentV value "platform" checkStringOrNullV envLoc ++
          checkIfPresentV value "language" checkStringOrNullV envLoc ++
          checkIfPresentV value "languages" checkArrayOrNullV envLoc ++
          checkIfPresentV value "hardwareConcurrency" checkNumberOrNullV envLoc ++
          checkIfPresentV value "deviceMemory" checkNumberOrNullV envLoc ++
          checkIfPresentV value "maxTouchPoints" checkNumberOrNullV envLoc ++
          checkIfPresentV value "isSecureContext" checkBooleanV envLoc ++
          checkIfPresentV value "crossOriginIsolated" checkBooleanV envLoc ++
          checkIfPresentV value "visibilityState" checkStringV envLoc ++
          checkIfPresentV value "dpr" checkNumberV envLoc ++
          checkIfPresentV value "canvas_css" checkObjectV envLoc ++
          checkIfPresentV value "canvas_px" checkObjectV envLoc ++
          checkIfPresentV value "url" checkStringV envLoc) ++
        checkIfPresentV value "xr_enter_to_first_frame_ms" checkNumberV envLoc ++
        checkIfPresentV value "xr_dom_overlay_requested" checkBooleanV envLoc ++
        checkIfPresentV value "xr_abort_reason" checkStringV envLoc ++
        checkIfPresentV value "xr_skipped_reason" checkStringV envLoc ++
        checkIfPresentV value "xr_observed_view_count" checkNumberV envLoc ++
        validateEnvRest value envLoc ++
        (if (match jsGet value "api" with
             | some (.str s) => s == "webgl2"
             | _ => false) then
          (if strictV11 then
            checkObjectOrNullV value "contextAttributes" envLoc ++
            checkObjectOrNullV value "gpu" envLoc
          else
            checkIfPresentV value "contextAttributes" checkObjectOrNullV envLoc ++
            checkIfPresentV value "gpu" checkObjectOrNullV envLoc)
        else []) ++
        (if (match jsGet value "api" with
             | some (.str s) => s == "webgpu"
             | _ => false) then
          (if strictV11 then
            checkObjectOrNullV value "adapterRequest" envLoc ++
            checkBooleanOrNullV value "xrCompatibleRequested" envLoc ++
            checkObjectOrNullV value "adapter" envLoc ++
            checkArrayOrNullV value "adapter_features" envLoc ++
            checkObjectOrNullV value "adapter_limits" envLoc ++
            checkArrayOrNullV value "device_features" envLoc ++
            checkObjectOrNullV value "device_limits" envLoc ++
            checkStringOrNullV value "colorFormat" envLoc
          else
            checkIfPresentV value "adapterRequest" checkObjectOrNullV envLoc ++
            checkIfPresentV value "xrCompatibleRequested" checkBooleanOrNullV envLoc ++
            checkIfPresentV value "adapter" checkObjectOrNullV envLoc ++
            checkIfPresentV value "adapter_features" checkArrayOrNullV envLoc ++
            checkIfPresentV value "adapter_limits" checkObjectOrNullV envLoc ++
            checkIfPresentV value "device_features" checkArrayOrNullV envLoc ++
            checkIfPresentV value "device_limits" checkObjectOrNullV envLoc ++
            checkIfPresentV value "colorFormat" checkStringOrNullV envLoc)
        else [])
    | some v => [.typeErr loc "env" "object" (typeNameV v)]
    | none => []

def validateSummary (record : List (String × JSValue))
    (loc : List String) : List VErr :=
  if hasOwnFields record "summary" = false then [.missing loc "summary"]
  else match jsGet record "summary" with
    | some (.obj summary) =>
        checkNumberV summary "frames" (loc ++ ["summary"]) ++
        checkNumberV summary "duration_ms" (loc ++ ["summary"]) ++
        checkNumberV summary "mean_ms" (loc ++ ["summary"]) ++
        checkNumberV summary "p50_ms" (loc ++ ["summary"]) ++
        checkNumberV summary "p95_ms" (loc ++ ["summary"]) ++
        checkNumberV summary "p99_ms" (loc ++ ["summary"])
    | some v => [.typeErr loc "summary" "object" (typeNameV v)]
    | none => []

def validateExtras (record : List (String × JSValue))
    (loc : List String) : List VErr :=
  if hasOwnFields record "extras" = false then [.missing loc "extras"]
  else match jsGet record "extras" with
    | some (.obj extras) =>
        checkNumberV extras "fps_effective" (loc ++ ["extras"]) ++
        checkNumberV extras "fps_from_mean" (loc ++ ["extras"]) ++
        checkNumberV extras "target_ms" (loc ++ ["extras"]) ++
        checkNumberV extras "missed_1p5x" (loc ++ ["extras"]) ++
        checkNumberV extras "missed_2x" (loc ++ ["extras"]) ++
        checkNumberV extras "missed_1p5x_pct" (loc ++ ["extras"]) ++
        checkNumberV extras "max_frame_ms" (loc ++ ["extras"]) ++
        checkNumberV extras "jank_p99_over_p50" (loc ++ ["extras"])
    | some v => [.typeErr loc "extras" "object" (typeNameV v)]
    | none => []

def validatePerfLongtask (perf : List (String × JSValue))
    (perfLoc : List String) : List VErr :=
  if hasOwnFields perf "longtask" = false then [.missing perfLoc "longtask"]
  else match jsGet perf "longtask" with
    | some (.obj longtask) =>
        checkNumberV longtask "count" (perfLoc ++ ["longtask"]) ++
        checkNumberV longtask "total_ms" (perfLoc ++ ["longtask"]) ++
        checkNumberV longtask "max_ms" (perfLoc ++ ["longtask"]) ++
        (if hasOwnFields longtask "entries" then
          checkOneOfTypesV longtask "entries" ["array", "undefined"]
            (perfLoc ++ ["longtask"])
        else [])
    | some v => [.typeErr perfLoc "longtask" "object" (typeNameV v)]
    | none => []

def validatePerf (record : List (String × JSValue))
    (loc : List String) : List VErr :=
  if hasOwnFields record "perf" = false then [.missing loc "perf"]
  else match jsGet record "perf" with
    | some .null => []
    | some (.obj perf) =>
        checkOneOfTypesV perf "trial_measure_ms" ["number", "null"]
          (loc ++ ["perf"]) ++
        checkOneOfTypesV perf "memory_start" ["object", "null"]
          (loc ++ ["perf"]) ++
        checkOneOfTypesV perf "memory_end" ["object", "null"]
          (loc ++ ["perf"]) ++
        checkOneOfTypesV perf "model_resource" ["object", "null"]
          (loc ++ ["perf"]) ++
        checkNumberV perf "timeOrigin" (loc ++ ["perf"]) ++
        validatePerfLongtask perf (loc ++ ["perf"])
    | some v => [.typeErr loc "perf" "object or null" (typeNameV v)]
    | none => []

def validateXRViewports (record : List (String × JSValue))
    (loc : List String) : List VErr :=
  if hasOwnFields record "xr_viewports" = false then
    [.missing loc "xr_viewports"]
  else match jsGet record "xr_viewports" with
    | some (.arr viewports) =>
        (viewports.enum.flatMap (fun iv =>
          match iv.2 with
          | .obj vp =>
              checkNumberV vp "x" (loc ++ ["xr_viewports", toString iv.1]) ++
              checkNumberV vp "y" (loc ++ ["xr_viewports", toString iv.1]) ++
              checkNumberV vp "w" (loc ++ ["xr_viewports", toString iv.1]) ++
              checkNumberV vp "h" (loc ++ ["xr_viewports", toString iv.1])
          | v => [.custom (loc ++ ["xr_viewports", toString iv.1])
              ("expected object, got " ++ typeNameV v)]))
    | some v => [.typeErr loc "xr_viewports" "array" (typeNameV v)]
    | none => []

def validatePartialTrial (record : List (String × JSValue))
    (loc : List String) : List VErr :=
  if hasOwnFields record "partial_trial" = false then
    [.missing loc "partial_trial"]
  else match jsGet record "partial_trial" with
    | some (.obj pt) =>
        checkOneOfTypesV pt "elapsed_ms" ["number", "null"]
          (loc ++ ["partial_trial"]) ++
        (if hasOwnFields pt "frames_collected" then
          checkNumberV pt "frames_collected" (loc ++ ["partial_trial"])
        else
          checkNumberV pt "frames_collected_t" (loc ++ ["partial_trial"]) ++
          checkNumberV pt "frames_collected_now" (loc ++ ["partial_trial"]))
    | some v => [.typeErr loc "partial_trial" "object" (typeNameV v)]
    | none => []

/-- The unsupported-`schema_version` check of `validateBase` (the branch
guarded by `typeof record.schema_version === "string"`). -/
def checkSupportedVersion (record : List (String × JSValue))
    (loc : List String) : List VErr :=
  match jsGet record "schema_version" with
  | some (.str sv) =>
      if SUPPORTED_SCHEMA_VERSIONS.contains sv = false then
        [.custom loc ("unsupported schema_version " ++ sv)]
      else []
  | _ => []

/-- The `Date.parse(startedAt)` check of `validateBase`;
`dateParseIsNaN` is the environment's `Number.isNaN(Date.parse(...))`. -/
def checkStartedAtDate (dateParseIsNaN : String → Bool)
    (record : List (String × JSValue)) (loc : List String) : List VErr :=
  match jsGet record "startedAt" with
  | some (.str st) =>
      if dateParseIsNaN st then
        [.custom loc "startedAt is not a parseable ISO date"]
      else []
  | _ => []

def COMMON_REQUIRED_FIELDS : List String :=
  ["schema_version", "api", "mode", "modelUrl", "instances", "trial",
   "trials", "durationMs", "warmupMs", "cooldownMs", "betweenInstancesMs",
   "layout", "seed", "shuffle", "spacing", "collectPerf", "perfDetail",
   "condition_index", "condition_count", "suiteId", "startedAt",
   "asset_timing", "asset_meta", "env"]

def validateBase (dateParseIsNaN : String → Bool)
    (record : List (String × JSValue)) (loc : List String) : List VErr :=
  (COMMON_REQUIRED_FIELDS.flatMap (fun f => presErr record f loc)) ++
  checkStringV record "schema_version" loc ++
  checkSupportedVersion record loc ++
  checkEnumV record "api" VALID_APIS loc ++
  checkEnumV record "mode" VALID_MODES loc ++
  checkStringV record "modelUrl" loc ++
  checkOneOfTypesV record "instances" ["number", "null"] loc ++
  checkOneOfTypesV record "trial" ["number", "null"] loc ++
  checkNumberV record "trials" loc ++
  checkNumberV record "durationMs" loc ++
  checkNumberV record "warmupMs" loc ++
  checkNumberV record "cooldownMs" loc ++
  checkNumberV record "betweenInstancesMs" loc ++
  checkStringV record "layout" loc ++
  checkNumberV record "seed" loc ++
  checkBooleanV record "shuffle" loc ++
  checkNumberV record "spacing" loc ++
  checkBooleanV record "collectPerf" loc ++
  checkBooleanV record "perfDetail" loc ++
  checkOneOfTypesV record "condition_index" ["number", "null"] loc ++
  checkOneOfTypesV record "condition_count" ["number", "null"] loc ++
  checkStringV record "suiteId" loc ++
  checkStringV record "startedAt" loc ++
  checkStartedAtDate dateParseIsNaN record loc ++
  validateAssetTiming record loc ++
  validateAssetMeta record loc ++
  validateEnv record loc

def validateAbortRecord (record : List (String × JSValue))
    (loc : List String) : List VErr :=
  checkBooleanV record "aborted" loc ++
  (if (match jsGet record "mode" with
       | some (.str s) => s == "xr"
       | _ => false) = false then
    [.custom loc "abort record must have mode xr"]
  else []) ++
  checkStringV record "abort_code" loc ++
  checkStringV record "abort_reason" loc ++
  checkNumberV record "observed_view_count" loc ++
  checkNumberV record "expected_max_views" loc ++
  checkNumberV record "preIdleMs" loc ++
  checkNumberV record "postIdleMs" loc ++
  validatePartialTrial record loc ++
  validateXRViewports record loc

/-- The optional all-numeric raw-sample array checks of
`validateTrialRecord`. -/
def validateFramesArray (record : List (String × JSValue)) (key : String)
    (loc : List String) : List VErr :=
  if hasOwnFields record key = false then []
  else match jsGet record key with
    | some (.arr elems) =>
        elems.enum.flatMap (fun iv =>
          match iv.2 with
          | .num _ => []
          | _ => [.custom (loc ++ [key, toString iv.1]) "expected number"])
    | some v => [.typeErr loc key "array" (typeNameV v)]
    | none => []

def validateTrialRecord (record : List (String × JSValue))
    (loc : List String) : List VErr :=
  (if (match jsGet record "mode" with
       | some (.str s) => s == "canvas"
       | _ => false) then
    checkNumberV record "preIdleMs" loc ++
    checkNumberV record "postIdleMs" loc
  else []) ++
  validateSummary record loc ++
  validateExtras record loc ++
  validatePerf record loc ++
  (if (match jsGet record "mode" with
       | some (.str s) => s == "xr"
       | _ => false) then
    validateXRViewports record loc
  else []) ++
  validateFramesArray record "frames_ms" loc ++
  validateFramesArray record "frames_ms_now" loc

def validateRecord (dateParseIsNaN : String → Bool) (record : JSValue)
    (loc : List String) : List VErr :=
  match record with
  | .obj fields =>
      validateBase dateParseIsNaN fields loc ++
      (if (match jsGet fields "aborted" with
           | some (.bool b) => b
           | _ => false) then
        validateAbortRecord fields loc
      else validateTrialRecord fields loc)
  | v => [.custom loc ("expected JSON object, got " ++ typeNameV v)]

/-- The binary exit status of the CLI: 0 iff no validation error across
all input records. -/
def validatorExitCode (dateParseIsNaN : String → Bool)
    (records : List JSValue) : ℕ :=
  if (records.flatMap (fun r => validateRecord dateParseIsNaN r [])).length
      = 0 then 0
  else 1

/-! ### Counting the missing-`schema_version` reports

`isMissingSV` recognises a `MissingField` report whose key is
`schema_version`; `NoSV es` says a checker emitted none. -/

def isMissingSV : VErr → Bool
  | .missing _ k => k == "schema_version"
  | _ => false

def NoSV (es : List VErr) : Prop := es.filter isMissingSV = []

theorem NoSV_nil : NoSV ([] : List VErr) := rfl

theorem NoSV_append {a b : List VErr} (ha : NoSV a) (hb : NoSV b) :
    NoSV (a ++ b) := by
  simp only [NoSV, List.filter_append] at *
  rw [ha, hb]
  rfl

theorem NoSV_ite {c : Prop} [Decidable c] {a b : List VErr}
    (ha : NoSV a) (hb : NoSV b) : NoSV (if c then a else b) := by
  split <;> assumption

theorem NoSV_missing {loc : List String} {k : String}
    (h : k ≠ "schema_version") : NoSV [VErr.missing loc k] := by
  have hb : (k == "schema_version") = false := beq_eq_false_iff_ne.mpr h
  simp [NoSV, List.filter, isMissingSV, hb]

theorem NoSV_typeErr {loc : List String} {k e a : String} :
    NoSV [VErr.typeErr loc k e a] := by
  simp [NoSV, List.filter, isMissingSV]

theorem NoSV_custom {loc : List String} {m : String} :
    NoSV [VErr.custom loc m] := by
  simp [NoSV, List.filter, isMissingSV]

theorem NoSV_presErr {o : List (String × JSValue)} {k : String}
    {loc : List String} (h : k ≠ "schema_version") :
    NoSV (presErr o k loc) := by
  unfold presErr
  exact NoSV_ite (NoSV_missing h) NoSV_nil

theorem NoSV_checkStringV {o : List (String × JSValue)} {k : String}
    {loc : List String} (h : k ≠ "schema_version") :
    NoSV (checkStringV o k loc) := by
  unfold checkStringV
  split
  · exact NoSV_missing h
  · split
    · exact NoSV_nil
    · exact NoSV_typeErr
    · exact NoSV_nil

theorem NoSV_checkBooleanV {o : List (String × JSValue)} {k : String}
    {loc : List String} (h : k ≠ "schema_version") :
    NoSV (checkBooleanV o k loc) := by
  unfold checkBooleanV
  split
  · exact NoSV_missing h
  · split
    · exact NoSV_nil
    · exact NoSV_typeErr
    · exact NoSV_nil

theorem NoSV_checkNumberV {o : List (String × JSValue)} {k : String}
    {loc : List String} (h : k ≠ "schema_version") :
    NoSV (checkNumberV o k loc) := by
  unfold checkNumberV
  split
  · exact NoSV_missing h
  · split
    · exact NoSV_nil
    · exact NoSV_typeErr
    · exact NoSV_nil

theorem NoSV_checkObjectV {o : List (String × JSValue)} {k : String}
    {loc : List String} (h : k ≠ "schema_version") :
    NoSV (checkObjectV o k loc) := by
  unfold checkObjectV
  split
  · exact NoSV_missing h
  · split
    · exact NoSV_nil
    · exact NoSV_typeErr
    · exact NoSV_nil

theorem NoSV_checkStringOrNullV {o : List (String × JSValue)} {k : String}
    {loc : List String} (h : k ≠ "schema_version") :
    NoSV (checkStringOrNullV o k loc) := by
  unfold checkStringOrNullV
  split
  · exact NoSV_missing h
  · split
    · exact NoSV_nil
    · exact NoSV_nil
    · exact NoSV_typeErr
    · exact NoSV_nil

theorem NoSV_checkNumberOrNullV {o : List (String × JSValue)} {k : String}
    {loc : List String} (h : k ≠ "schema_version") :
    NoSV (checkNumberOrNullV o k loc) := by
  unfold checkNumberOrNullV
  split
  · exact NoSV_missing h
  · split
    · exact NoSV_nil
    · exact NoSV_nil
    · exact NoSV_typeErr
    · exact NoSV_nil

theorem NoSV_checkBooleanOrNullV {o : List (String × JSValue)} {k : String}
    {loc : List String} (h : k ≠ "schema_version") :
    NoSV (checkBooleanOrNullV o k loc) := by
  unfold checkBooleanOrNullV
  split
  · exact NoSV_missing h
  · split
    · exact NoSV_nil
    · exact NoSV_nil
    · exact NoSV_typeErr
    · exact NoSV_nil

theorem NoSV_checkObjectOrNullV {o : List (String × JSValue)} {k : String}
    {loc : List String} (h : k ≠ "schema_version") :
    NoSV (checkObjectOrNullV o k loc) := by
  unfold checkObjectOrNullV
  split
  · exact NoSV_missing h
  · split
    · exact NoSV_nil
    · exact NoSV_nil
    · exact NoSV_typeErr
    · exact NoSV_nil

theorem NoSV_checkArrayOrNullV {o : List (String × JSValue)} {k : String}
    {loc : List String} (h : k ≠ "schema_version") :
    NoSV (checkArrayOrNullV o k loc) := by
  unfold checkArrayOrNullV
  split
  · exact NoSV_missing h
  · split
    · exact NoSV_nil
    · exact NoSV_nil
    · exact NoSV_typeErr
    · exact NoSV_nil

theorem NoSV_checkOneOfTypesV {o : List (String × JSValue)} {k : String}
    {types : List String} {loc : List String} (h : k ≠ "schema_version") :
    NoSV (checkOneOfTypesV o k types loc) := by
  unfold checkOneOfTypesV
  split
  · exact NoSV_missing h
  · split
    · exact NoSV_ite NoSV_typeErr NoSV_nil
    · exact NoSV_nil

theorem NoSV_checkEnumV {o : List (String × JSValue)} {k : String}
    {allowed : List String} {loc : List String} (h : k ≠ "schema_version") :
    NoSV (checkEnumV o k allowed loc) := by
  unfold checkEnumV
  split
  · exact NoSV_missing h
  · split
    · exact NoSV_ite NoSV_custom NoSV_nil
    · exact NoSV_custom
    · exact NoSV_nil

theorem NoSV_checkIfPresentV {o : List (String × JSValue)} {k : String}
    {checker : List (String × JSValue) → String → List String → List VErr}
    {loc : List String} (h : NoSV (checker o k loc)) :
    NoSV (checkIfPresentV o k checker loc) := by
  unfold checkIfPresentV
  exact NoSV_ite NoSV_nil h

theorem NoSV_flatMap {α : Type} {l : List α} {f : α → List VErr}
    (h : ∀ x ∈ l, NoSV (f x)) : NoSV (l.flatMap f) := by
  induction l with
  | nil => exact NoSV_nil
  | cons x xs ih =>
      simp only [List.flatMap_cons]
      exact NoSV_append (h x (by simp)) (ih (fun y hy => h y (by simp [hy])))

theorem NoSV_validateAssetTiming (record : List (String × JSValue))
    (loc : List String) : NoSV (validateAssetTiming record loc) := by
  unfold validateAssetTiming
  repeat' first
    | apply NoSV_append
    | apply NoSV_ite
    | split
    | exact NoSV_nil
    | exact NoSV_typeErr
    | exact NoSV_custom
    | exact NoSV_missing (by decide)
    | intro _ _

theorem NoSV_validateAssetMeta (record : List (String × JSValue))
    (loc : List String) : NoSV (validateAssetMeta record loc) := by
  unfold validateAssetMeta
  repeat' first
    | apply NoSV_append
    | apply NoSV_ite
    | split
    | exact NoSV_nil
    | exact NoSV_typeErr
    | exact NoSV_custom
    | exact NoSV_missing (by decide)
    | intro _ _

theorem NoSV_validateEnvRest (value : List (String × JSValue))
    (envLoc : List String) : NoSV (validateEnvRest value envLoc) := by
  unfold validateEnvRest
  repeat' first
    | apply NoSV_append
    | apply NoSV_ite
    | split
    | exact NoSV_nil
    | exact NoSV_typeErr
    | exact NoSV_custom
    | exact NoSV_missing (by decide)
    | intro _ _

set_option maxHeartbeats 4000000 in
theorem NoSV_validateEnv (record : List (String × JSValue))
    (loc : List String) : NoSV (validateEnv record loc) := by
  unfold validateEnv
  repeat' first
    | apply NoSV_append
    | apply NoSV_ite
    | split
    | exact NoSV_nil
    | exact NoSV_typeErr
    | exact NoSV_custom
    | exact NoSV_missing (by decide)
    | intro _ _

theorem NoSV_validateSummary (record : List (String × JSValue))
    (loc : List String) : NoSV (validateSummary record loc) := by
  unfold validateSummary
  repeat' first
    | apply NoSV_append
    | apply NoSV_ite
    | split
    | exact NoSV_nil
    | exact NoSV_typeErr
    | exact NoSV_custom
    | exact NoSV_missing (by decide)
    | intro _ _

theorem NoSV_validateExtras (record : List (String × JSValue))
    (loc : List String) : NoSV (validateExtras record loc) := by
  unfold validateExtras
  repeat' first
    | apply NoSV_append
    | apply NoSV_ite
    | split
    | exact NoSV_nil
    | exact NoSV_typeErr
    | exact NoSV_custom
    | exact NoSV_missing (by decide)
    | intro _ _

theorem NoSV_validatePerfLongtask (perf : List (String × JSValue))
    (perfLoc : List String) : NoSV (validatePerfLongtask perf perfLoc) := by
  unfold validatePerfLongtask
  repeat' first
    | apply NoSV_append
    | apply NoSV_ite
    | split
    | exact NoSV_nil
    | exact NoSV_typeErr
    | exact NoSV_custom
    | exact NoSV_missing (by decide)
    | intro _ _

theorem NoSV_validatePerf (record : List (String × JSValue))
    (loc : List String) : NoSV (validatePerf record loc) := by
  unfold validatePerf
  repeat' first
    | apply NoSV_append
    | apply NoSV_ite
    | split
    | exact NoSV_nil
    | exact NoSV_typeErr
    | exact NoSV_custom
    | exact NoSV_missing (by decide)
    | intro _ _

theorem NoSV_validateXRViewports (record : List (String × JSValue))
    (loc : List String) : NoSV (validateXRViewports record loc) := by
  unfold validateXRViewports
  repeat' first
    | apply NoSV_append
    | apply NoSV_ite
    | apply NoSV_flatMap
    | split
    | exact NoSV_nil
    | exact NoSV_typeErr
    | exact NoSV_custom
    | exact NoSV_missing (by decide)
    | intro _ _

theorem NoSV_validatePartialTrial (record : List (String × JSValue))
    (loc : List String) : NoSV (validatePartialTrial record loc) := by
  unfold validatePartialTrial
  repeat' first
    | apply NoSV_append
    | apply NoSV_ite
    | split
    | exact NoSV_nil
    | exact NoSV_typeErr
    | exact NoSV_custom
    | exact NoSV_missing (by decide)
    | intro _ _

theorem NoSV_validateFramesArray (record : List (String × JSValue))
    (key : String) (loc : List String) :
    NoSV (validateFramesArray record key loc) := by
  unfold validateFramesArray
  repeat' first
    | apply NoSV_append
    | apply NoSV_ite
    | apply NoSV_flatMap
    | split
    | exact NoSV_nil
    | exact NoSV_typeErr
    | exact NoSV_custom
    | intro _ _

theorem NoSV_validateAbortRecord (record : List (String × JSValue))
    (loc : List String) : NoSV (validateAbortRecord record loc) := by
  unfold validateAbortRecord
  repeat' first
    | exact NoSV_validatePartialTrial _ _
    | exact NoSV_validateXRViewports _ _
    | apply NoSV_append
    | apply NoSV_ite
    | split
    | exact NoSV_nil
    | exact NoSV_typeErr
    | exact NoSV_custom
    | exact NoSV_missing (by decide)
    | intro _ _

theorem NoSV_validateTrialRecord (record : List (String × JSValue))
    (loc : List String) : NoSV (validateTrialRecord record loc) := by
  unfold validateTrialRecord
  repeat' first
    | exact NoSV_validateSummary _ _
    | exact NoSV_validateExtras _ _
    | exact NoSV_validatePerf _ _
    | exact NoSV_validateXRViewports _ _
    | exact NoSV_validateFramesArray _ _ _
    | apply NoSV_append
    | apply NoSV_ite
    | split
    | exact NoSV_nil
    | exact NoSV_typeErr
    | exact NoSV_custom
    | exact NoSV_missing (by decide)
    | intro _ _

theorem NoSV_checkSupportedVersion (record : List (String × JSValue))
    (loc : List String) : NoSV (checkSupportedVersion record loc) := by
  unfold checkSupportedVersion
  repeat' first
    | apply NoSV_ite
    | split
    | exact NoSV_nil
    | exact NoSV_custom

theorem NoSV_checkStartedAtDate (dateParseIsNaN : String → Bool)
    (record : List (String × JSValue)) (loc : List String) :
    NoSV (checkStartedAtDate dateParseIsNaN record loc) := by
  unfold checkStartedAtDate
  repeat' first
    | apply NoSV_ite
    | split
    | exact NoSV_nil
    | exact NoSV_custom

theorem jsGet_eq_none (o : List (String × JSValue)) (k : String)
    (h : hasOwnFields o k = false) : jsGet o k = none := by
  simp only [hasOwnFields, List.any_eq_false] at h
  unfold jsGet getField
  cases hf : List.find? (fun f => f.1 = k) o with
  | none => rfl
  | some x =>
      have hpx := List.find?_some hf
      have hmem := List.mem_of_find?_eq_some hf
      exact absurd hpx (by simpa using h x hmem)

theorem filterSV_presErr_sv (o : List (String × JSValue)) (loc : List String)
    (h : hasOwnFields o "schema_version" = false) :
    (presErr o "schema_version" loc).filter isMissingSV =
      [.missing loc "schema_version"] := by
  simp [presErr, h, List.filter, isMissingSV]

theorem filterSV_checkStringV_sv (o : List (String × JSValue))
    (loc : List String) (h : hasOwnFields o "schema_version" = false) :
    (checkStringV o "schema_version" loc).filter isMissingSV =
      [.missing loc "schema_version"] := by
  simp [checkStringV, h, List.filter, isMissingSV]

theorem filterSV_common_loop (o : List (String × JSValue))
    (h : hasOwnFields o "schema_version" = false) :
    ((COMMON_REQUIRED_FIELDS.flatMap (fun f => presErr o f [])).filter
      isMissingSV) = [.missing [] "schema_version"] := by
  have hpne : ∀ k : String, k ≠ "schema_version" →
      (presErr o k []).filter isMissingSV = ([] : List VErr) :=
    fun _ hk => NoSV_presErr hk
  simp only [COMMON_REQUIRED_FIELDS, List.flatMap_cons, List.flatMap_nil,
    List.filter_append, List.append_nil]
  rw [filterSV_presErr_sv o [] h]
  rw [hpne "api" (by decide), hpne "mode" (by decide),
    hpne "modelUrl" (by decide), hpne "instances" (by decide),
    hpne "trial" (by decide), hpne "trials" (by decide),
    hpne "durationMs" (by decide), hpne "warmupMs" (by decide),
    hpne "cooldownMs" (by decide), hpne "betweenInstancesMs" (by decide),
    hpne "layout" (by decide), hpne "seed" (by decide),
    hpne "shuffle" (by decide), hpne "spacing" (by decide),
    hpne "collectPerf" (by decide), hpne "perfDetail" (by decide),
    hpne "condition_index" (by decide), hpne "condition_count" (by decide),
    hpne "suiteId" (by decide), hpne "startedAt" (by decide),
    hpne "asset_timing" (by decide), hpne "asset_meta" (by decide),
    hpne "env" (by decide)]
  simp

/-- C5 (amended) — a record object lacking `schema_version` is reported
with exactly TWO missing-field errors for that (top-level) path — one
from the required-field loop of `validateBase`, one from the dedicated
`checkString` call, both of which invoke `checkFieldPresence` — and the
run exits with failure status 1. -/
theorem c5_missing_schema_version_two_reports
    (dateParseIsNaN : String → Bool) (fields : List (String × JSValue))
    (h : hasOwnFields fields "schema_version" = false) :
    (validateRecord dateParseIsNaN (.obj fields) []).filter isMissingSV =
      [.missing [] "schema_version", .missing [] "schema_version"] ∧
      validatorExitCode dateParseIsNaN [.obj fields] = 1 := by
  have hnone : jsGet fields "schema_version" = none := jsGet_eq_none _ _ h
  have efilter : (validateRecord dateParseIsNaN (.obj fields) []).filter
      isMissingSV =
      [.missing [] "schema_version", .missing [] "schema_version"] := by
    have e3 : (checkEnumV fields "api" VALID_APIS []).filter isMissingSV = [] :=
      NoSV_checkEnumV (by decide)
    have e4 : (checkEnumV fields "mode" VALID_MODES []).filter isMissingSV = [] :=
      NoSV_checkEnumV (by decide)
    have e5 : ∀ k : String, k ≠ "schema_version" →
        (checkStringV fields k []).filter isMissingSV = [] :=
      fun _ hk => NoSV_checkStringV hk
    have e6 : ∀ (k : String) (ts : List String), k ≠ "schema_version" →
        (checkOneOfTypesV fields k ts []).filter isMissingSV = [] :=
      fun _ _ hk => NoSV_checkOneOfTypesV hk
    have e7 : ∀ k : String, k ≠ "schema_version" →
        (checkNumberV fields k []).filter isMissingSV = [] :=
      fun _ hk => NoSV_checkNumberV hk
    have e8 : ∀ k : String, k ≠ "schema_version" →
        (checkBooleanV fields k []).filter isMissingSV = [] :=
      fun _ hk => NoSV_checkBooleanV hk
    have e9 : (validateAssetTiming fields []).filter isMissingSV = [] :=
      NoSV_validateAssetTiming fields []
    have e10 : (validateAssetMeta fields []).filter isMissingSV = [] :=
      NoSV_validateAssetMeta fields []
    have e11 : (validateEnv fields []).filter isMissingSV = [] :=
      NoSV_validateEnv fields []
    have e12 : (validateAbortRecord fields []).filter isMissingSV = [] :=
      NoSV_validateAbortRecord fields []
    have e13 : (validateTrialRecord fields []).filter isMissingSV = [] :=
      NoSV_validateTrialRecord fields []
    have e1 : (checkSupportedVersion fields []).filter isMissingSV = [] :=
      NoSV_checkSupportedVersion fields []
    have e2 : (checkStartedAtDate dateParseIsNaN fields []).filter
        isMissingSV = [] := NoSV_checkStartedAtDate dateParseIsNaN fields []
    unfold validateRecord validateBase
    simp only [List.filter_append]
    rw [filterSV_common_loop fields h, filterSV_checkStringV_sv fields [] h]
    rw [e1, e2]
    rw [e3, e4, e5 "modelUrl" (by decide), e6 "instances" _ (by decide),
      e6 "trial" _ (by decide), e7 "trials" (by decide),
      e7 "durationMs" (by decide), e7 "warmupMs" (by decide),
      e7 "cooldownMs" (by decide), e7 "betweenInstancesMs" (by decide),
      e5 "layout" (by decide), e7 "seed" (by decide),
      e8 "shuffle" (by decide), e7 "spacing" (by decide),
      e8 "collectPerf" (by decide), e8 "perfDetail" (by decide),
      e6 "condition_index" _ (by decide), e6 "condition_count" _ (by decide),
      e5 "suiteId" (by decide), e5 "startedAt" (by decide), e9, e10, e11]
    rw [apply_ite (List.filter isMissingSV), e12, e13]
    simp
  refine ⟨efilter, ?_⟩
  have hne : validateRecord dateParseIsNaN (.obj fields) [] ≠ [] := by
    intro hnil
    rw [hnil] at efilter
    simp at efilter
  unfold validatorExitCode
  simp only [List.flatMap_cons, List.flatMap_nil, List.append_nil]
  rw [if_neg]
  simpa using hne

/-- Witness for C5 (amended): the empty record object. -/
theorem c5_missing_schema_version_two_reports_witness :
    hasOwnFields [] "schema_version" = false ∧
      ((validateRecord (fun _ => false) (.obj []) []).filter isMissingSV =
        [.missing [] "schema_version", .missing [] "schema_version"] ∧
        validatorExitCode (fun _ => false) [.obj []] = 1) :=
  ⟨by decide, c5_missing_schema_version_two_reports (fun _ => false) []
    (by decide)⟩

/-- C5 — the claim as stated fails on the code: for a record object
lacking `schema_version` (here the empty object) the validator reports
two `MissingField` errors for that path, not exactly one. -/
theorem c5_missing_schema_version_counterexample :
    ((validateRecord (fun _ => false) (.obj []) []).countP
        (· = VErr.missing [] "schema_version")) = 2 ∧
      ((validateRecord (fun _ => false) (.obj []) []).countP
        (· = VErr.missing [] "schema_version")) ≠ 1 := by
  decide

end WebXRHarness
